import Mathlib

/-! # nail-site: booking page, appointments page and localized catalog fields

A shallow embedding of the stateful core of the salon frontend
(`frontend/src/pages/BookingPage.jsx`, `frontend/src/pages/admin/AdminAppointments.jsx`,
the state handling of `ServicesPage.jsx`, `ContactPage.jsx` and `GalleryPage.jsx`,
and the `getLocalizedText` helper that `BookingPage.jsx`, `ServicesPage.jsx`,
`GalleryPage.jsx` and `HomePage.jsx` each carry a copy of), with the theorems
proved about it.  The response cache behind the hook `useCachedApi` is not
among the sources and is modelled from the specification.

Conventions of the embedding

* A catalog record is a JSON object whose localizable properties are text:
  a key is missing, holds JSON `null`, or holds a string.  Reading a property
  gives a `JsVal`.
* React state is passed explicitly; a handler maps the state before the call
  to the state after it, together with the list of effects it issued
  (network requests, toasts, console output).
* The outcome of an awaited network request is a parameter of the handler.
* An instant is a number of milliseconds on the local time line (a fixed
  offset from UTC is assumed); the calendar widget hands out the instant at
  local midnight of the day that was picked.
-/

namespace NailSite

/-! ## JavaScript values read from catalog records -/

/-- The values a text property of a JSON record evaluates to: `undefined`
when the key is missing, `null`, or a string. -/
inductive JsVal where
  | undefined
  | null
  | str (s : String)
  deriving DecidableEq, Repr

/-- JavaScript truthiness: `undefined`, `null` and `''` are falsy, every
other string is truthy. -/
def JsVal.truthy : JsVal → Bool
  | .undefined => false
  | .null => false
  | .str s => s != ""

/-- The JavaScript operator `a || b`: `a` when `a` is truthy, `b` otherwise. -/
def jsOr (a b : JsVal) : JsVal :=
  if a.truthy then a else b

/-- A catalog record (Service, Artist, GalleryItem, ...): the list of its
text properties, `none` standing for JSON `null`. -/
abbrev Entity := List (String × Option String)

/-- Property read `item[key]`. -/
def Entity.get (item : Entity) (key : String) : JsVal :=
  match item.lookup key with
  | none => .undefined
  | some none => .null
  | some (some s) => .str s

/-- The languages offered by the language menu of `Header.jsx`. -/
def languages : List String := ["de", "fr", "en"]

/-- `getLocalizedText` of `BookingPage.jsx` (lines 96-99), identical in
`ServicesPage.jsx`, `GalleryPage.jsx` and `HomePage.jsx`:
`item[field + '_' + lang] || item[field + '_en']`, where `lang` is
`i18n.language`. -/
def getLocalizedText (lang : String) (item : Entity) (field : String) : JsVal :=
  jsOr (item.get (field ++ "_" ++ lang)) (item.get (field ++ "_en"))

/-- A value is a non-empty string. -/
def JsVal.isNonEmptyStr (v : JsVal) : Prop :=
  ∃ s, v = .str s ∧ s ≠ ""

/-! ## Instants, calendar days and `format(date, 'yyyy-MM-dd')` -/

/-- Milliseconds in a day. -/
def msPerDay : Int := 86400000

/-- The instant at local midnight of day number `day` (days counted from
1970-01-01): the `Date` the calendar widget passes for that day. -/
def midnight (day : Int) : Int := day * msPerDay

/-- The calendar day an instant falls on. -/
def dayOf (t : Int) : Int := t / msPerDay

/-- Year, month (1-12) and day of month (1-31) of a day number in the
proleptic Gregorian calendar: `getFullYear()`, `getMonth() + 1` and
`getDate()` of a `Date` on that day. -/
def civilFromDays (day : Int) : Int × Int × Int :=
  let z := day + 719468
  let era := z / 146097
  let doe := z - era * 146097
  let yoe := (doe - doe / 1460 + doe / 36524 - doe / 146096) / 365
  let doy := doe - (365 * yoe + yoe / 4 - yoe / 100)
  let mp := (5 * doy + 2) / 153
  let d := doy - (153 * mp + 2) / 5 + 1
  let m := if mp < 10 then mp + 3 else mp - 9
  let y := yoe + era * 400 + (if m ≤ 2 then 1 else 0)
  (y, m, d)

/-- The helper `addLeadingZeros(number, targetLength)` of date-fns: the sign,
then the decimal digits of the absolute value padded on the left with `0` up
to `targetLength` characters. -/
def addLeadingZeros (number : Int) (targetLength : Nat) : String :=
  let digits := toString number.natAbs
  let output := String.mk (List.replicate (targetLength - digits.length) '0') ++ digits
  (if number < 0 then "-" else "") ++ output

/-- The call `format(date, 'yyyy-MM-dd')` of date-fns on a valid `Date`: the
token `yyyy` prints the year (`1 - year` for years up to 0) with at least four
digits, `MM` and `dd` print month and day of month with two digits. -/
def formatYMD (t : Int) : String :=
  let (signedYear, month, dayOfMonth) := civilFromDays (dayOf t)
  let year := if signedYear > 0 then signedYear else 1 - signedYear
  addLeadingZeros year 4 ++ "-" ++ addLeadingZeros month 2 ++ "-" ++ addLeadingZeros dayOfMonth 2

/-! ## The booking page (`BookingPage.jsx`) -/

/-- The value held by `formData.appointment_date`: `null` in the initial and
the reset draft, `undefined` when the calendar reports a deselection, or the
`Date` at local midnight of the picked day. -/
inductive DateVal where
  | null
  | undefined
  | date (t : Int)
  deriving DecidableEq, Repr

/-- Truthiness of the date field: a `Date` object is truthy, `null` and
`undefined` are falsy. -/
def DateVal.truthy : DateVal → Bool
  | .date _ => true
  | _ => false

/-- Truthiness of a string: every string but `''` is truthy. -/
def strTruthy (s : String) : Bool := s != ""

/-- The state variable `formData` (lines 63-72). -/
structure Draft where
  service_id : String
  artist_id : String
  appointment_date : DateVal
  appointment_time : String
  customer_name : String
  customer_email : String
  customer_phone : String
  notes : String
  deriving DecidableEq, Repr

/-- The initial value of `formData` (lines 63-72), which is also the literal
`handleSubmit` resets it to (lines 153-162). -/
def emptyDraft : Draft :=
  { service_id := "", artist_id := "", appointment_date := .null,
    appointment_time := "", customer_name := "", customer_email := "",
    customer_phone := "", notes := "" }

/-- The object `appointmentData` of `handleSubmit` (lines 142-145):
`formData` with `appointment_date` replaced by a string. -/
structure AppointmentData where
  service_id : String
  artist_id : String
  appointment_date : String
  appointment_time : String
  customer_name : String
  customer_email : String
  customer_phone : String
  notes : String
  deriving DecidableEq, Repr

/-- What a handler does to the outside world, in the order it does it. -/
inductive Effect where
  | preventDefault
  | toastError (message : String)
  | toastSuccess (translationKey : String)
  | consoleError (message : String)
  | httpGet (path : String)
  | httpPost (path : String) (body : AppointmentData)
  | httpPatch (path : String)
  | httpDelete (path : String)
  deriving DecidableEq, Repr

/-- A request sent to the backend. -/
def Effect.isRequest : Effect → Bool
  | .httpGet _ => true
  | .httpPost _ _ => true
  | .httpPatch _ => true
  | .httpDelete _ => true
  | _ => false

/-- The `useState` variables of `BookingPage` (lines 57-72). -/
structure BookingState where
  services : List Entity
  artists : List Entity
  loading : Bool
  submitting : Bool
  success : Bool
  formData : Draft
  deriving DecidableEq, Repr

/-- The state of a freshly mounted `BookingPage`. -/
def initialState : BookingState :=
  { services := [], artists := [], loading := true, submitting := false,
    success := false, formData := emptyDraft }

/-- The time slots offered by the time select (lines 102-106). -/
def timeSlots : List String :=
  ["09:00", "09:30", "10:00", "10:30", "11:00", "11:30",
   "12:00", "12:30", "13:00", "13:30", "14:00", "14:30",
   "15:00", "15:30", "16:00", "16:30", "17:00", "17:30", "18:00"]

/-- The updater of `handleServiceChange` (lines 109-111). -/
def handleServiceChange (value : String) (prev : Draft) : Draft :=
  { prev with service_id := value }

/-- The updater of `handleArtistChange` (lines 113-115). -/
def handleArtistChange (value : String) (prev : Draft) : Draft :=
  { prev with artist_id := value }

/-- The updater of `handleDateChange` (lines 117-119). -/
def handleDateChange (date : DateVal) (prev : Draft) : Draft :=
  { prev with appointment_date := date }

/-- The updater of `handleTimeChange` (lines 121-123). -/
def handleTimeChange (value : String) (prev : Draft) : Draft :=
  { prev with appointment_time := value }

/-- The keys of `formData` that hold a string: the keys `handleInputChange`
can be given while the draft keeps its shape (the form uses the last four). -/
inductive TextField where
  | service_id
  | artist_id
  | appointment_time
  | customer_name
  | customer_email
  | customer_phone
  | notes
  deriving DecidableEq, Repr

/-- The updater of `handleInputChange(field)` (lines 125-127):
`{ ...prev, [field]: e.target.value }`. -/
def handleInputChange (field : TextField) (value : String) (prev : Draft) : Draft :=
  match field with
  | .service_id => { prev with service_id := value }
  | .artist_id => { prev with artist_id := value }
  | .appointment_time => { prev with appointment_time := value }
  | .customer_name => { prev with customer_name := value }
  | .customer_email => { prev with customer_email := value }
  | .customer_phone => { prev with customer_phone := value }
  | .notes => { prev with notes := value }

/-- The call `setFormData(updater)`. -/
def setFormData (updater : Draft → Draft) (s : BookingState) : BookingState :=
  { s with formData := updater s.formData }

/-- The condition of the guard that opens `handleSubmit` (lines 132-134):
true when the handler stops with the toast. -/
def requiredMissing (formData : Draft) : Bool :=
  !strTruthy formData.service_id || !strTruthy formData.artist_id ||
  !formData.appointment_date.truthy || !strTruthy formData.appointment_time ||
  !strTruthy formData.customer_name || !strTruthy formData.customer_email ||
  !strTruthy formData.customer_phone

/-- The body built in lines 142-145 for a draft whose date is the `Date` `t`. -/
def appointmentData (formData : Draft) (t : Int) : AppointmentData :=
  { service_id := formData.service_id, artist_id := formData.artist_id,
    appointment_date := formatYMD t,
    appointment_time := formData.appointment_time,
    customer_name := formData.customer_name,
    customer_email := formData.customer_email,
    customer_phone := formData.customer_phone, notes := formData.notes }

/-- The path of the appointments resource, below `BACKEND_URL`. -/
def appointmentsPath : String := "/api/appointments"

/-- `handleSubmit` (lines 129-169).  `postOk` tells whether the awaited
`axios.post` resolves (`true`) or rejects (`false`).  The result is the state
once the handler has returned and the effects it issued.  A date that is not
a `Date` makes `format` throw inside the `try`, which is the `catch` path
without a request; the guard lets no such draft through. -/
def handleSubmit (postOk : Bool) (s : BookingState) : BookingState × List Effect :=
  if requiredMissing s.formData then
    (s, [.preventDefault, .toastError "Please fill in all required fields"])
  else
    let s1 := { s with submitting := true }
    match s.formData.appointment_date with
    | .date t =>
      let request := Effect.httpPost appointmentsPath (appointmentData s.formData t)
      if postOk then
        ({ s1 with success := true, formData := emptyDraft, submitting := false },
          [.preventDefault, request, .toastSuccess "booking.bookingSuccess"])
      else
        ({ s1 with submitting := false },
          [.preventDefault, request, .consoleError "Error creating appointment:",
            .toastError "Failed to book appointment. Please try again."])
    | _ =>
      ({ s1 with submitting := false },
        [.preventDefault, .consoleError "Error creating appointment:",
          .toastError "Failed to book appointment. Please try again."])

/-- `handleReset` (lines 171-173). -/
def handleReset (s : BookingState) : BookingState :=
  { s with success := false }

/-- `isDateDisabled` (line 176): `date < new Date()`, with `now` the instant
`new Date()` evaluates to. -/
def isDateDisabled (now : Int) (date : Int) : Bool :=
  decide (date < now)

/-- `fetchData` (lines 75-89).  `servicesRes` and `artistsRes` are the
outcomes of the two GET requests, `none` for a rejected one; `Promise.all`
rejects as soon as one of them does. -/
def fetchData (servicesRes artistsRes : Option (List Entity)) (s : BookingState) :
    BookingState × List Effect :=
  match servicesRes, artistsRes with
  | some services, some artists =>
    ({ s with services := services, artists := artists, loading := false },
      [.httpGet "/api/services", .httpGet "/api/artists"])
  | _, _ =>
    ({ s with loading := false },
      [.httpGet "/api/services", .httpGet "/api/artists", .consoleError "Error fetching data:"])

/-- `handleSubmit` up to its `await` (lines 130-147): the state the page is
in while the POST is under way, or the final state when no POST is sent. -/
def handleSubmitStart (s : BookingState) : BookingState × List Effect :=
  if requiredMissing s.formData then
    (s, [.preventDefault, .toastError "Please fill in all required fields"])
  else
    match s.formData.appointment_date with
    | .date t =>
      ({ s with submitting := true },
        [.preventDefault, .httpPost appointmentsPath (appointmentData s.formData t)])
    | _ =>
      ({ s with submitting := false },
        [.preventDefault, .consoleError "Error creating appointment:",
          .toastError "Failed to book appointment. Please try again."])

/-- `handleSubmit` after its `await` (lines 149-168), run when the POST
resolves (`postOk`) or rejects. -/
def handleSubmitSettle (postOk : Bool) (s : BookingState) : BookingState × List Effect :=
  if postOk then
    ({ s with success := true, formData := emptyDraft, submitting := false },
      [.toastSuccess "booking.bookingSuccess"])
  else
    ({ s with submitting := false },
      [.consoleError "Error creating appointment:",
        .toastError "Failed to book appointment. Please try again."])

/-- What `BookingPage` renders (lines 178-181). -/
inductive View where
  | loading
  | success
  | form
  deriving DecidableEq, Repr

/-- The view chosen by lines 178-181: the spinner while `loading`, else the
success message while `success`, else the form. -/
def view (s : BookingState) : View :=
  if s.loading then .loading else if s.success then .success else .form

/-- The events of the booking page: the answers to its requests and the
callbacks of the controls it renders. -/
inductive BookingEvent where
  | fetchSettled (servicesRes artistsRes : Option (List Entity))
  | serviceChange (value : String)
  | artistChange (value : String)
  | dateChange (date : DateVal)
  | timeChange (value : String)
  | inputChange (field : TextField) (value : String)
  | submit
  | postSettled (postOk : Bool)
  | reset
  deriving DecidableEq, Repr

/-- When an event can occur.  The catalog requests sent on mount are answered
while `loading`; a POST is answered while `submitting`; the form and its
handlers are rendered only in the form view, its submit button being disabled
while `submitting` (line 357); the success message renders only the button
bound to `handleReset` (line 179). -/
def BookingEvent.enabled (s : BookingState) : BookingEvent → Bool
  | .fetchSettled _ _ => s.loading
  | .postSettled _ => s.submitting
  | .submit => view s == .form && !s.submitting
  | .reset => view s == .success
  | _ => view s == .form

/-- The state after an event. -/
def step (s : BookingState) : BookingEvent → BookingState
  | .fetchSettled servicesRes artistsRes => (fetchData servicesRes artistsRes s).1
  | .serviceChange value => setFormData (handleServiceChange value) s
  | .artistChange value => setFormData (handleArtistChange value) s
  | .dateChange date => setFormData (handleDateChange date) s
  | .timeChange value => setFormData (handleTimeChange value) s
  | .inputChange field value => setFormData (handleInputChange field value) s
  | .submit => (handleSubmitStart s).1
  | .postSettled postOk => (handleSubmitSettle postOk s).1
  | .reset => handleReset s

/-- The state reached from `s` by a sequence of events, `none` when one of
them cannot occur where it stands. -/
def run (s : BookingState) : List BookingEvent → Option BookingState
  | [] => some s
  | e :: rest => if e.enabled s then run (step s e) rest else none

/-- The `Promise.all` awaited by `fetchData` (line 77): the values of the
requests fulfilled so far, and whether the `await` has already returned or
thrown. -/
structure CatalogLoad where
  services : Option (List Entity)
  artists : Option (List Entity)
  settled : Bool
  deriving DecidableEq, Repr

/-- The `Promise.all` of `fetchData` when both requests have just been sent. -/
def catalogLoadStart : CatalogLoad :=
  { services := none, artists := none, settled := false }

/-- The answer to one of the two requests of `fetchData`: its data, or `none`
when the request is rejected. -/
inductive CatalogAnswer where
  | services (res : Option (List Entity))
  | artists (res : Option (List Entity))
  deriving DecidableEq, Repr

/-- `fetchData` (lines 75-89) answer by answer.  `Promise.all` rejects at the
first rejection, which runs the `catch` branch; it fulfils when both requests
are fulfilled, which runs the rest of the `try` branch; once it has settled a
later answer changes nothing. -/
def fetchDataAnswer (answer : CatalogAnswer) (p : CatalogLoad) (s : BookingState) :
    CatalogLoad × BookingState :=
  if p.settled then (p, s)
  else
    match answer with
    | .services none => ({ p with settled := true }, { s with loading := false })
    | .artists none => ({ p with settled := true }, { s with loading := false })
    | .services (some services) =>
      match p.artists with
      | some artists =>
        ({ p with services := some services, settled := true },
          { s with services := services, artists := artists, loading := false })
      | none => ({ p with services := some services }, s)
    | .artists (some artists) =>
      match p.services with
      | some services =>
        ({ p with artists := some artists, settled := true },
          { s with services := services, artists := artists, loading := false })
      | none => ({ p with artists := some artists }, s)

/-- Whether an answer is a rejection. -/
def CatalogAnswer.rejected : CatalogAnswer → Bool
  | .services none => true
  | .artists none => true
  | _ => false

/-- The names of the fields of the draft. -/
inductive Field where
  | service_id
  | artist_id
  | appointment_date
  | appointment_time
  | customer_name
  | customer_email
  | customer_phone
  | notes
  deriving DecidableEq, Repr

/-- A value stored in a field of the draft. -/
inductive FieldVal where
  | text (s : String)
  | date (d : DateVal)
  deriving DecidableEq, Repr

/-- Property read `formData[field]`. -/
def Draft.get (formData : Draft) : Field → FieldVal
  | .service_id => .text formData.service_id
  | .artist_id => .text formData.artist_id
  | .appointment_date => .date formData.appointment_date
  | .appointment_time => .text formData.appointment_time
  | .customer_name => .text formData.customer_name
  | .customer_email => .text formData.customer_email
  | .customer_phone => .text formData.customer_phone
  | .notes => .text formData.notes

/-- The key of the draft a text field name stands for. -/
def TextField.toField : TextField → Field
  | .service_id => .service_id
  | .artist_id => .artist_id
  | .appointment_time => .appointment_time
  | .customer_name => .customer_name
  | .customer_email => .customer_email
  | .customer_phone => .customer_phone
  | .notes => .notes

/-- The seven required fields of a draft are all non-empty: the six strings
differ from `''` and the date is a `Date` (neither `null` nor `undefined`). -/
def Draft.requiredFilled (formData : Draft) : Prop :=
  formData.service_id ≠ "" ∧ formData.artist_id ≠ "" ∧
  (∃ t, formData.appointment_date = .date t) ∧ formData.appointment_time ≠ "" ∧
  formData.customer_name ≠ "" ∧ formData.customer_email ≠ "" ∧
  formData.customer_phone ≠ ""

/-- A catalog record with a German and an English name. -/
def manicure : Entity :=
  [("id", some "svc-1"), ("name_de", some "Manikuere"), ("name_en", some "Manicure"),
   ("name_fr", some ""), ("price", some "CHF 60")]

/-- A catalog record without any name. -/
def unnamed : Entity :=
  [("id", some "svc-2"), ("price", some "CHF 60")]

/-- A draft filled in by the update handlers, with day 19000 (2022-01-08) as
its date. -/
def filledDraft : Draft :=
  handleInputChange .customer_phone "+41 79 000 00 00"
    (handleInputChange .customer_email "ana@example.com"
      (handleInputChange .customer_name "Ana Smith"
        (handleTimeChange "09:00"
          (handleDateChange (.date (midnight 19000))
            (handleArtistChange "artist-1"
              (handleServiceChange "svc-1" emptyDraft))))))

/-- The page showing the form with `filledDraft` typed in. -/
def filledState : BookingState :=
  setFormData (fun _ => filledDraft) { initialState with loading := false }

/-! ## Time slots and posted body: notions used by the statements -/

/-- The minutes since midnight a text `HH:MM` stands for, when it has that
shape. -/
def slotMinutes (slot : String) : Option Nat :=
  match slot.data with
  | [h1, h2, ':', m1, m2] =>
    if h1.isDigit && h2.isDigit && m1.isDigit && m2.isDigit then
      some (((h1.toNat - 48) * 10 + (h2.toNat - 48)) * 60 + ((m1.toNat - 48) * 10 + (m2.toNat - 48)))
    else none
  | _ => none

/-- The text `HH:MM` of a number of minutes since midnight. -/
def clockTime (minutes : Nat) : String :=
  String.mk [Nat.digitChar (minutes / 60 / 10), Nat.digitChar (minutes / 60 % 10), ':',
    Nat.digitChar (minutes % 60 / 10), Nat.digitChar (minutes % 60 % 10)]

/-- The half hours from 09:00 (540 minutes) to 18:00 (1080 minutes). -/
def halfHours : List Nat := (List.range 19).map (fun i => 540 + 30 * i)

/-- The text `YYYY-MM-DD` of a calendar date: four digits of year, two of
month, two of day of month. -/
def isoDate (year month dayOfMonth : Nat) : String :=
  String.mk [Nat.digitChar (year / 1000), Nat.digitChar (year / 100 % 10),
    Nat.digitChar (year / 10 % 10), Nat.digitChar (year % 10), '-',
    Nat.digitChar (month / 10), Nat.digitChar (month % 10), '-',
    Nat.digitChar (dayOfMonth / 10), Nat.digitChar (dayOfMonth % 10)]

/-- The bodies of the POST requests among the effects of a handler. -/
def postedBodies : List Effect → List AppointmentData
  | [] => []
  | .httpPost _ body :: rest => body :: postedBodies rest
  | _ :: rest => postedBodies rest

/-- The draft `filledDraft` with 1 January of the year 10000 (day 2932897)
picked as its date. -/
def farDraft : Draft :=
  handleDateChange (.date (midnight 2932897)) filledDraft

/-- The page showing the form with `farDraft` typed in. -/
def farState : BookingState :=
  setFormData (fun _ => farDraft) { initialState with loading := false }

/-- A session: the catalog loads, a visitor fills in the form for day 19000
and submits it, and the POST succeeds. -/
def bookingSession : List BookingEvent :=
  [.fetchSettled (some [manicure]) (some []),
   .serviceChange "svc-1", .artistChange "artist-1", .dateChange (.date (midnight 19000)),
   .timeChange "09:00", .inputChange .customer_name "Ana Smith",
   .inputChange .customer_email "ana@example.com",
   .inputChange .customer_phone "+41 79 000 00 00", .submit, .postSettled true]

/-- Modelled from the spec: the `Calendar` component (`components/ui/calendar`),
which is not among the sources.  Given `disabled={isDateDisabled}` it lets the
user pick a day only if `isDateDisabled`, evaluated at the current instant
`now`, does not reject the day; it passes the `Date` at local midnight of that
day, or `undefined` when the picked day is deselected, and never `null`. -/
def calendarOffers (now : Int) (date : DateVal) : Bool :=
  match date with
  | .date t => !isDateDisabled now t
  | .undefined => true
  | .null => false

/-- An event of the booking page with the instant at which it occurs. -/
structure TimedEvent where
  now : Int
  event : BookingEvent
  deriving DecidableEq, Repr

/-- When an event can occur at its instant, `clock` being the instant of the
event before it: time does not run backwards, the event can occur in the
state of the page, and a date delivered to `handleDateChange` is one the
calendar offers at that instant. -/
def TimedEvent.enabled (clock : Int) (s : BookingState) (te : TimedEvent) : Bool :=
  decide (clock ≤ te.now) && te.event.enabled s &&
    (match te.event with
     | .dateChange date => calendarOffers te.now date
     | _ => true)

/-- The instant and the state reached from `s` at `clock` by a sequence of
timed events, `none` when one of them cannot occur where it stands. -/
def timedRun (clock : Int) (s : BookingState) : List TimedEvent → Option (Int × BookingState)
  | [] => some (clock, s)
  | te :: rest =>
    if te.enabled clock s then timedRun te.now (step s te.event) rest else none

/-- A session on day 18999: the catalog loads at 10:00, a visitor picks day
19000 in the calendar at noon and fills in the rest of the form. -/
def timedSession : List TimedEvent :=
  [⟨midnight 18999 + 36000000, .fetchSettled (some [manicure]) (some [])⟩,
   ⟨midnight 18999 + 43100000, .serviceChange "svc-1"⟩,
   ⟨midnight 18999 + 43150000, .artistChange "artist-1"⟩,
   ⟨midnight 18999 + 43200000, .dateChange (.date (midnight 19000))⟩,
   ⟨midnight 18999 + 43250000, .timeChange "09:00"⟩,
   ⟨midnight 18999 + 43300000, .inputChange .customer_name "Ana Smith"⟩,
   ⟨midnight 18999 + 43350000, .inputChange .customer_email "ana@example.com"⟩,
   ⟨midnight 18999 + 43400000, .inputChange .customer_phone "+41 79 000 00 00"⟩]

/-- The state of the page after `timedSession`. -/
def timedSessionState : BookingState :=
  { services := [manicure], artists := [], loading := false, submitting := false,
    success := false, formData := filledDraft }

/-! ## `String.prototype.toLowerCase`

The lower-casing of the Unicode Default Case Conversion, which
`String.prototype.toLowerCase` applies: every character is replaced by its
lowercase mapping of the Unicode Character Database (version 14.0), the letter
U+0130 by the two characters U+0069 U+0307, and the capital sigma U+03A3 by the
final sigma U+03C2 when it ends a word (condition `Final_Sigma`) and by U+03C3
otherwise.  The tables list the mappings and the two character properties the
condition consults. -/

/-- The simple lowercase mappings outside ASCII: an entry
`(first, last, step, target)` maps the code points `first`, `first + step`,
..., `last` to `target`, `target + step`, ... -/
def lowercaseRuns : List (Nat × Nat × Nat × Nat) :=
  [(192, 214, 1, 224), (216, 222, 1, 248), (256, 302, 2, 257), (306, 310, 2, 307),
   (313, 327, 2, 314), (330, 374, 2, 331), (376, 376, 1, 255), (377, 381, 2, 378),
   (385, 385, 1, 595), (386, 388, 2, 387), (390, 390, 1, 596), (391, 391, 1, 392),
   (393, 394, 1, 598), (395, 395, 1, 396), (398, 398, 1, 477), (399, 399, 1, 601),
   (400, 400, 1, 603), (401, 401, 1, 402), (403, 403, 1, 608), (404, 404, 1, 611),
   (406, 406, 1, 617), (407, 407, 1, 616), (408, 408, 1, 409), (412, 412, 1, 623),
   (413, 413, 1, 626), (415, 415, 1, 629), (416, 420, 2, 417), (422, 422, 1, 640),
   (423, 423, 1, 424), (425, 425, 1, 643), (428, 428, 1, 429), (430, 430, 1, 648),
   (431, 431, 1, 432), (433, 434, 1, 650), (435, 437, 2, 436), (439, 439, 1, 658),
   (440, 440, 1, 441), (444, 444, 1, 445), (452, 452, 1, 454), (453, 453, 1, 454),
   (455, 455, 1, 457), (456, 456, 1, 457), (458, 458, 1, 460), (459, 475, 2, 460),
   (478, 494, 2, 479), (497, 497, 1, 499), (498, 500, 2, 499), (502, 502, 1, 405),
   (503, 503, 1, 447), (504, 542, 2, 505), (544, 544, 1, 414), (546, 562, 2, 547),
   (570, 570, 1, 11365), (571, 571, 1, 572), (573, 573, 1, 410), (574, 574, 1, 11366),
   (577, 577, 1, 578), (579, 579, 1, 384), (580, 580, 1, 649), (581, 581, 1, 652),
   (582, 590, 2, 583), (880, 882, 2, 881), (886, 886, 1, 887), (895, 895, 1, 1011),
   (902, 902, 1, 940), (904, 906, 1, 941), (908, 908, 1, 972), (910, 911, 1, 973),
   (913, 929, 1, 945), (931, 939, 1, 963), (975, 975, 1, 983), (984, 1006, 2, 985),
   (1012, 1012, 1, 952), (1015, 1015, 1, 1016), (1017, 1017, 1, 1010), (1018, 1018, 1, 1019),
   (1021, 1023, 1, 891), (1024, 1039, 1, 1104), (1040, 1071, 1, 1072), (1120, 1152, 2, 1121),
   (1162, 1214, 2, 1163), (1216, 1216, 1, 1231), (1217, 1229, 2, 1218), (1232, 1326, 2, 1233),
   (1329, 1366, 1, 1377), (4256, 4293, 1, 11520), (4295, 4295, 1, 11559),
   (4301, 4301, 1, 11565), (5024, 5103, 1, 43888), (5104, 5109, 1, 5112),
   (7312, 7354, 1, 4304), (7357, 7359, 1, 4349), (7680, 7828, 2, 7681), (7838, 7838, 1, 223),
   (7840, 7934, 2, 7841), (7944, 7951, 1, 7936), (7960, 7965, 1, 7952), (7976, 7983, 1, 7968),
   (7992, 7999, 1, 7984), (8008, 8013, 1, 8000), (8025, 8031, 2, 8017), (8040, 8047, 1, 8032),
   (8072, 8079, 1, 8064), (8088, 8095, 1, 8080), (8104, 8111, 1, 8096), (8120, 8121, 1, 8112),
   (8122, 8123, 1, 8048), (8124, 8124, 1, 8115), (8136, 8139, 1, 8050), (8140, 8140, 1, 8131),
   (8152, 8153, 1, 8144), (8154, 8155, 1, 8054), (8168, 8169, 1, 8160), (8170, 8171, 1, 8058),
   (8172, 8172, 1, 8165), (8184, 8185, 1, 8056), (8186, 8187, 1, 8060), (8188, 8188, 1, 8179),
   (8486, 8486, 1, 969), (8490, 8490, 1, 107), (8491, 8491, 1, 229), (8498, 8498, 1, 8526),
   (8544, 8559, 1, 8560), (8579, 8579, 1, 8580), (9398, 9423, 1, 9424),
   (11264, 11311, 1, 11312), (11360, 11360, 1, 11361), (11362, 11362, 1, 619),
   (11363, 11363, 1, 7549), (11364, 11364, 1, 637), (11367, 11371, 2, 11368),
   (11373, 11373, 1, 593), (11374, 11374, 1, 625), (11375, 11375, 1, 592),
   (11376, 11376, 1, 594), (11378, 11378, 1, 11379), (11381, 11381, 1, 11382),
   (11390, 11391, 1, 575), (11392, 11490, 2, 11393), (11499, 11501, 2, 11500),
   (11506, 11506, 1, 11507), (42560, 42604, 2, 42561), (42624, 42650, 2, 42625),
   (42786, 42798, 2, 42787), (42802, 42862, 2, 42803), (42873, 42875, 2, 42874),
   (42877, 42877, 1, 7545), (42878, 42886, 2, 42879), (42891, 42891, 1, 42892),
   (42893, 42893, 1, 613), (42896, 42898, 2, 42897), (42902, 42920, 2, 42903),
   (42922, 42922, 1, 614), (42923, 42923, 1, 604), (42924, 42924, 1, 609),
   (42925, 42925, 1, 620), (42926, 42926, 1, 618), (42928, 42928, 1, 670),
   (42929, 42929, 1, 647), (42930, 42930, 1, 669), (42931, 42931, 1, 43859),
   (42932, 42946, 2, 42933), (42948, 42948, 1, 42900), (42949, 42949, 1, 642),
   (42950, 42950, 1, 7566), (42951, 42953, 2, 42952), (42960, 42960, 1, 42961),
   (42966, 42968, 2, 42967), (42997, 42997, 1, 42998), (65313, 65338, 1, 65345),
   (66560, 66599, 1, 66600), (66736, 66771, 1, 66776), (66928, 66964, 2, 66967),
   (66929, 66938, 1, 66968), (66940, 66954, 1, 66979), (66956, 66962, 1, 66995),
   (66964, 66965, 1, 67003), (68736, 68786, 1, 68800), (71840, 71871, 1, 71872),
   (93760, 93791, 1, 93792), (125184, 125217, 1, 125218)]

/-- The ranges of the characters with the property `Cased` that are not
`Case_Ignorable`. -/
def casedRanges : List (Nat × Nat) :=
  [(65, 90), (97, 122), (170, 170), (181, 181), (186, 186), (192, 214), (216, 246), (248, 442),
   (444, 447), (452, 659), (661, 687), (880, 883), (886, 887), (891, 893), (895, 895),
   (902, 902), (904, 906), (908, 908), (910, 929), (931, 1013), (1015, 1153), (1162, 1327),
   (1329, 1366), (1376, 1416), (4256, 4293), (4295, 4295), (4301, 4301), (4304, 4346),
   (4349, 4351), (5024, 5109), (5112, 5117), (7296, 7304), (7312, 7354), (7357, 7359),
   (7424, 7467), (7531, 7543), (7545, 7578), (7680, 7957), (7960, 7965), (7968, 8005),
   (8008, 8013), (8016, 8023), (8025, 8025), (8027, 8027), (8029, 8029), (8031, 8061),
   (8064, 8116), (8118, 8124), (8126, 8126), (8130, 8132), (8134, 8140), (8144, 8147),
   (8150, 8155), (8160, 8172), (8178, 8180), (8182, 8188), (8450, 8450), (8455, 8455),
   (8458, 8467), (8469, 8469), (8473, 8477), (8484, 8484), (8486, 8486), (8488, 8488),
   (8490, 8493), (8495, 8500), (8505, 8505), (8508, 8511), (8517, 8521), (8526, 8526),
   (8544, 8575), (8579, 8580), (9398, 9449), (11264, 11387), (11390, 11492), (11499, 11502),
   (11506, 11507), (11520, 11557), (11559, 11559), (11565, 11565), (42560, 42605),
   (42624, 42651), (42786, 42863), (42865, 42887), (42891, 42894), (42896, 42954),
   (42960, 42961), (42963, 42963), (42965, 42969), (42997, 42998), (43002, 43002),
   (43824, 43866), (43872, 43880), (43888, 43967), (64256, 64262), (64275, 64279),
   (65313, 65338), (65345, 65370), (66560, 66639), (66736, 66771), (66776, 66811),
   (66928, 66938), (66940, 66954), (66956, 66962), (66964, 66965), (66967, 66977),
   (66979, 66993), (66995, 67001), (67003, 67004), (68736, 68786), (68800, 68850),
   (71840, 71903), (93760, 93823), (119808, 119892), (119894, 119964), (119966, 119967),
   (119970, 119970), (119973, 119974), (119977, 119980), (119982, 119993), (119995, 119995),
   (119997, 120003), (120005, 120069), (120071, 120074), (120077, 120084), (120086, 120092),
   (120094, 120121), (120123, 120126), (120128, 120132), (120134, 120134), (120138, 120144),
   (120146, 120485), (120488, 120512), (120514, 120538), (120540, 120570), (120572, 120596),
   (120598, 120628), (120630, 120654), (120656, 120686), (120688, 120712), (120714, 120744),
   (120746, 120770), (120772, 120779), (122624, 122633), (122635, 122654), (125184, 125251),
   (127280, 127305), (127312, 127337), (127344, 127369)]

/-- The ranges of the characters with the property `Case_Ignorable`. -/
def caseIgnorableRanges : List (Nat × Nat) :=
  [(39, 39), (46, 46), (58, 58), (94, 94), (96, 96), (168, 168), (173, 173), (175, 175),
   (180, 180), (183, 184), (688, 879), (884, 885), (890, 890), (900, 901), (903, 903),
   (1155, 1161), (1369, 1369), (1375, 1375), (1425, 1469), (1471, 1471), (1473, 1474),
   (1476, 1477), (1479, 1479), (1524, 1524), (1536, 1541), (1552, 1562), (1564, 1564),
   (1600, 1600), (1611, 1631), (1648, 1648), (1750, 1757), (1759, 1768), (1770, 1773),
   (1807, 1807), (1809, 1809), (1840, 1866), (1958, 1968), (2027, 2037), (2042, 2042),
   (2045, 2045), (2070, 2093), (2137, 2139), (2184, 2184), (2192, 2193), (2200, 2207),
   (2249, 2306), (2362, 2362), (2364, 2364), (2369, 2376), (2381, 2381), (2385, 2391),
   (2402, 2403), (2417, 2417), (2433, 2433), (2492, 2492), (2497, 2500), (2509, 2509),
   (2530, 2531), (2558, 2558), (2561, 2562), (2620, 2620), (2625, 2626), (2631, 2632),
   (2635, 2637), (2641, 2641), (2672, 2673), (2677, 2677), (2689, 2690), (2748, 2748),
   (2753, 2757), (2759, 2760), (2765, 2765), (2786, 2787), (2810, 2815), (2817, 2817),
   (2876, 2876), (2879, 2879), (2881, 2884), (2893, 2893), (2901, 2902), (2914, 2915),
   (2946, 2946), (3008, 3008), (3021, 3021), (3072, 3072), (3076, 3076), (3132, 3132),
   (3134, 3136), (3142, 3144), (3146, 3149), (3157, 3158), (3170, 3171), (3201, 3201),
   (3260, 3260), (3263, 3263), (3270, 3270), (3276, 3277), (3298, 3299), (3328, 3329),
   (3387, 3388), (3393, 3396), (3405, 3405), (3426, 3427), (3457, 3457), (3530, 3530),
   (3538, 3540), (3542, 3542), (3633, 3633), (3636, 3642), (3654, 3662), (3761, 3761),
   (3764, 3772), (3782, 3782), (3784, 3789), (3864, 3865), (3893, 3893), (3895, 3895),
   (3897, 3897), (3953, 3966), (3968, 3972), (3974, 3975), (3981, 3991), (3993, 4028),
   (4038, 4038), (4141, 4144), (4146, 4151), (4153, 4154), (4157, 4158), (4184, 4185),
   (4190, 4192), (4209, 4212), (4226, 4226), (4229, 4230), (4237, 4237), (4253, 4253),
   (4348, 4348), (4957, 4959), (5906, 5908), (5938, 5939), (5970, 5971), (6002, 6003),
   (6068, 6069), (6071, 6077), (6086, 6086), (6089, 6099), (6103, 6103), (6109, 6109),
   (6155, 6159), (6211, 6211), (6277, 6278), (6313, 6313), (6432, 6434), (6439, 6440),
   (6450, 6450), (6457, 6459), (6679, 6680), (6683, 6683), (6742, 6742), (6744, 6750),
   (6752, 6752), (6754, 6754), (6757, 6764), (6771, 6780), (6783, 6783), (6823, 6823),
   (6832, 6862), (6912, 6915), (6964, 6964), (6966, 6970), (6972, 6972), (6978, 6978),
   (7019, 7027), (7040, 7041), (7074, 7077), (7080, 7081), (7083, 7085), (7142, 7142),
   (7144, 7145), (7149, 7149), (7151, 7153), (7212, 7219), (7222, 7223), (7288, 7293),
   (7376, 7378), (7380, 7392), (7394, 7400), (7405, 7405), (7412, 7412), (7416, 7417),
   (7468, 7530), (7544, 7544), (7579, 7679), (8125, 8125), (8127, 8129), (8141, 8143),
   (8157, 8159), (8173, 8175), (8189, 8190), (8203, 8207), (8216, 8217), (8228, 8228),
   (8231, 8231), (8234, 8238), (8288, 8292), (8294, 8303), (8305, 8305), (8319, 8319),
   (8336, 8348), (8400, 8432), (11388, 11389), (11503, 11505), (11631, 11631), (11647, 11647),
   (11744, 11775), (11823, 11823), (12293, 12293), (12330, 12333), (12337, 12341),
   (12347, 12347), (12441, 12446), (12540, 12542), (40981, 40981), (42232, 42237),
   (42508, 42508), (42607, 42610), (42612, 42621), (42623, 42623), (42652, 42655),
   (42736, 42737), (42752, 42785), (42864, 42864), (42888, 42890), (42994, 42996),
   (43000, 43001), (43010, 43010), (43014, 43014), (43019, 43019), (43045, 43046),
   (43052, 43052), (43204, 43205), (43232, 43249), (43263, 43263), (43302, 43309),
   (43335, 43345), (43392, 43394), (43443, 43443), (43446, 43449), (43452, 43453),
   (43471, 43471), (43493, 43494), (43561, 43566), (43569, 43570), (43573, 43574),
   (43587, 43587), (43596, 43596), (43632, 43632), (43644, 43644), (43696, 43696),
   (43698, 43700), (43703, 43704), (43710, 43711), (43713, 43713), (43741, 43741),
   (43756, 43757), (43763, 43764), (43766, 43766), (43867, 43871), (43881, 43883),
   (44005, 44005), (44008, 44008), (44013, 44013), (64286, 64286), (64434, 64450),
   (65024, 65039), (65043, 65043), (65056, 65071), (65106, 65106), (65109, 65109),
   (65279, 65279), (65287, 65287), (65294, 65294), (65306, 65306), (65342, 65342),
   (65344, 65344), (65392, 65392), (65438, 65439), (65507, 65507), (65529, 65531),
   (66045, 66045), (66272, 66272), (66422, 66426), (67456, 67461), (67463, 67504),
   (67506, 67514), (68097, 68099), (68101, 68102), (68108, 68111), (68152, 68154),
   (68159, 68159), (68325, 68326), (68900, 68903), (69291, 69292), (69446, 69456),
   (69506, 69509), (69633, 69633), (69688, 69702), (69744, 69744), (69747, 69748),
   (69759, 69761), (69811, 69814), (69817, 69818), (69821, 69821), (69826, 69826),
   (69837, 69837), (69888, 69890), (69927, 69931), (69933, 69940), (70003, 70003),
   (70016, 70017), (70070, 70078), (70089, 70092), (70095, 70095), (70191, 70193),
   (70196, 70196), (70198, 70199), (70206, 70206), (70367, 70367), (70371, 70378),
   (70400, 70401), (70459, 70460), (70464, 70464), (70502, 70508), (70512, 70516),
   (70712, 70719), (70722, 70724), (70726, 70726), (70750, 70750), (70835, 70840),
   (70842, 70842), (70847, 70848), (70850, 70851), (71090, 71093), (71100, 71101),
   (71103, 71104), (71132, 71133), (71219, 71226), (71229, 71229), (71231, 71232),
   (71339, 71339), (71341, 71341), (71344, 71349), (71351, 71351), (71453, 71455),
   (71458, 71461), (71463, 71467), (71727, 71735), (71737, 71738), (71995, 71996),
   (71998, 71998), (72003, 72003), (72148, 72151), (72154, 72155), (72160, 72160),
   (72193, 72202), (72243, 72248), (72251, 72254), (72263, 72263), (72273, 72278),
   (72281, 72283), (72330, 72342), (72344, 72345), (72752, 72758), (72760, 72765),
   (72767, 72767), (72850, 72871), (72874, 72880), (72882, 72883), (72885, 72886),
   (73009, 73014), (73018, 73018), (73020, 73021), (73023, 73029), (73031, 73031),
   (73104, 73105), (73109, 73109), (73111, 73111), (73459, 73460), (78896, 78904),
   (92912, 92916), (92976, 92982), (92992, 92995), (94031, 94031), (94095, 94111),
   (94176, 94177), (94179, 94180), (110576, 110579), (110581, 110587), (110589, 110590),
   (113821, 113822), (113824, 113827), (118528, 118573), (118576, 118598), (119143, 119145),
   (119155, 119170), (119173, 119179), (119210, 119213), (119362, 119364), (121344, 121398),
   (121403, 121452), (121461, 121461), (121476, 121476), (121499, 121503), (121505, 121519),
   (122880, 122886), (122888, 122904), (122907, 122913), (122915, 122916), (122918, 122922),
   (123184, 123197), (123566, 123566), (123628, 123631), (125136, 125142), (125252, 125259),
   (127995, 127999), (917505, 917505), (917536, 917631), (917760, 917999)]

/-- The lowercase mapping of a code point: the letters A to Z and the entries
of `lowercaseRuns` are mapped, every other code point is left as it is. -/
def lowerCodePoint (n : Nat) : Nat :=
  if n < 128 then (if 65 ≤ n ∧ n ≤ 90 then n + 32 else n)
  else
    match lowercaseRuns.find? (fun r => r.1 ≤ n && n ≤ r.2.1 && (n - r.1) % r.2.2.1 == 0) with
    | some r => r.2.2.2 + (n - r.1)
    | none => n

/-- Whether a character is `Case_Ignorable`. -/
def isCaseIgnorable (c : Char) : Bool :=
  caseIgnorableRanges.any (fun r => r.1 ≤ c.toNat && c.toNat ≤ r.2)

/-- Whether a character that is not `Case_Ignorable` is `Cased`. -/
def isCasedLetter (c : Char) : Bool :=
  casedRanges.any (fun r => r.1 ≤ c.toNat && c.toNat ≤ r.2)

/-- Whether a run of characters is case-ignorable characters followed by a
cased letter. -/
def startsWithCased (text : List Char) : Bool :=
  match text.dropWhile isCaseIgnorable with
  | c :: _ => isCasedLetter c
  | [] => false

/-- The condition `Final_Sigma` for a capital sigma: `before` holds the
characters before it, the nearest first, `after` the characters after it. -/
def finalSigma (before after : List Char) : Bool :=
  startsWithCased before && !startsWithCased after

/-- The lower-casing of the characters `text` that stand after the characters
`before` (the nearest first). -/
def lowerChars (before : List Char) : List Char → List Char
  | [] => []
  | c :: rest =>
    (if c.toNat = 304 then [Char.ofNat 105, Char.ofNat 775]
     else if c.toNat = 931 then [if finalSigma before rest then Char.ofNat 962 else Char.ofNat 963]
     else [Char.ofNat (lowerCodePoint c.toNat)]) ++ lowerChars (c :: before) rest

/-! ## The appointments page of the back office (`AdminAppointments.jsx`) -/

/-- An appointment record as `GET /api/appointments` serves it: the fields of
the submitted draft, the identifier and status given by the backend, and in
`labels` the display properties the backend adds (`service_name_de`, ...,
`artist_name`). -/
structure Appointment where
  id : String
  service_id : String
  artist_id : String
  appointment_date : String
  appointment_time : String
  customer_name : String
  customer_email : String
  customer_phone : String
  notes : String
  status : String
  labels : Entity
  deriving DecidableEq, Repr

/-- `String.prototype.toLowerCase`. -/
def toLowerCase (s : String) : String :=
  String.mk (lowerChars [] s.data)

/-- Whether `needle` occurs in `haystack` as a run of consecutive characters. -/
def includesChars (haystack needle : List Char) : Bool :=
  match haystack with
  | [] => needle.isEmpty
  | c :: rest => needle.isPrefixOf (c :: rest) || includesChars rest needle

/-- `haystack.includes(needle)` on strings. -/
def includes (haystack needle : String) : Bool :=
  includesChars haystack.data needle.data

/-- The `useState` variables of `AdminAppointments` (lines 22-27);
`deleteId` is `null` (`none`) or the identifier of a record. -/
structure AdminState where
  appointments : List Appointment
  filteredAppointments : List Appointment
  loading : Bool
  deleteId : Option String
  searchTerm : String
  statusFilter : String
  deriving DecidableEq, Repr

/-- The state of a freshly mounted `AdminAppointments`. -/
def adminInitialState : AdminState :=
  { appointments := [], filteredAppointments := [], loading := true, deleteId := none,
    searchTerm := "", statusFilter := "all" }

/-- The predicate of the first `filter` of `filterAppointments` (lines 64-68). -/
def matchesSearch (searchTerm : String) (appt : Appointment) : Bool :=
  includes (toLowerCase appt.customer_name) (toLowerCase searchTerm) ||
  includes (toLowerCase appt.customer_email) (toLowerCase searchTerm) ||
  includes appt.customer_phone searchTerm

/-- The list computed by `filterAppointments` (lines 61-73). -/
def filtered (appointments : List Appointment) (searchTerm statusFilter : String) :
    List Appointment :=
  let afterSearch :=
    if strTruthy searchTerm then appointments.filter (matchesSearch searchTerm)
    else appointments
  if statusFilter != "all" then afterSearch.filter (fun appt => appt.status == statusFilter)
  else afterSearch

/-- `filterAppointments` (lines 60-76). -/
def filterAppointments (s : AdminState) : AdminState :=
  { s with filteredAppointments := filtered s.appointments s.searchTerm s.statusFilter }

/-- `fetchAppointments` (lines 47-58); `getRes` is the outcome of the GET,
`none` for a rejected one. -/
def fetchAppointments (getRes : Option (List Appointment)) (s : AdminState) :
    AdminState × List Effect :=
  match getRes with
  | some data =>
    ({ s with appointments := data, filteredAppointments := data, loading := false },
      [.httpGet appointmentsPath])
  | none =>
    ({ s with loading := false },
      [.httpGet appointmentsPath, .consoleError "Error fetching appointments:",
        .toastError "appointments.loadError"])

/-- The address the PATCH of `handleStatusChange` is sent to (line 80). -/
def statusPath (appointmentId newStatus : String) : String :=
  "/api/appointments/" ++ appointmentId ++ "/status?status=" ++ newStatus

/-- `handleStatusChange` (lines 78-87); `patchOk` tells whether the PATCH
resolves, `getRes` is the outcome of the GET of the `fetchAppointments` that
follows a resolved PATCH. -/
def handleStatusChange (patchOk : Bool) (getRes : Option (List Appointment))
    (appointmentId newStatus : String) (s : AdminState) : AdminState × List Effect :=
  let request := Effect.httpPatch (statusPath appointmentId newStatus)
  if patchOk then
    let fetched := fetchAppointments getRes s
    (fetched.1, [request, .toastSuccess "appointments.updateSuccess"] ++ fetched.2)
  else
    (s, [request, .consoleError "Error updating status:",
      .toastError "appointments.updateError"])

/-- The text a template literal gives for `deleteId`. -/
def deleteIdText : Option String → String
  | some id => id
  | none => "null"

/-- The address the DELETE of `handleDelete` is sent to (line 91). -/
def deletePath (deleteId : Option String) : String :=
  "/api/appointments/" ++ deleteIdText deleteId

/-- `handleDelete` (lines 89-99); `deleteOk` tells whether the DELETE
resolves, `getRes` is the outcome of the GET of the `fetchAppointments` that
follows a resolved DELETE. -/
def handleDelete (deleteOk : Bool) (getRes : Option (List Appointment)) (s : AdminState) :
    AdminState × List Effect :=
  let request := Effect.httpDelete (deletePath s.deleteId)
  if deleteOk then
    let fetched := fetchAppointments getRes { s with deleteId := none }
    (fetched.1, [request, .toastSuccess "appointments.deleteSuccess"] ++ fetched.2)
  else
    (s, [request, .consoleError "Error deleting appointment:",
      .toastError "appointments.deleteError"])

/-- The call `setDeleteId(value)`. -/
def setDeleteId (value : Option String) (s : AdminState) : AdminState :=
  { s with deleteId := value }

/-- The prop `open` passed to `ConfirmDialog` (line 286): `!!deleteId`. -/
def dialogOpen (s : AdminState) : Bool :=
  match s.deleteId with
  | some id => strTruthy id
  | none => false

/-- What the user can do with the confirmation dialog. -/
inductive DialogAction where
  | confirm
  | dismiss
  deriving DecidableEq, Repr

/-- Modelled from the spec: the component `ConfirmDialog`
(`components/admin/ConfirmDialog`), which is not among the sources.  Deleting
requires a confirmation step: the dialog is shown while its prop `open` is
true, and only then can the user confirm, which calls `onConfirm`, or dismiss,
which calls `onOpenChange`. -/
def confirmDialogActions (isOpen : Bool) : List DialogAction :=
  if isOpen then [.confirm, .dismiss] else []

/-- The values of the items of the status select of a record (lines 196-199
and 272-275); the list is the same for every record. -/
def statusOptions : List String :=
  ["pending", "confirmed", "completed", "cancelled"]

/-- `getLocalizedServiceName` (lines 30-37), with `language` the value of
`i18n.language`. -/
def getLocalizedServiceName (language : String) (appt : Appointment) : JsVal :=
  let lang := if language = "de-CH" then "de" else language
  jsOr (jsOr (appt.labels.get ("service_name_" ++ lang)) (appt.labels.get "service_name_en"))
    (.str "N/A")

/-- The events of the appointments page: what the user does with the controls
it renders, with the outcomes of the requests a handler awaits. -/
inductive AdminEvent where
  | setSearchTerm (value : String)
  | setStatusFilter (value : String)
  | statusSelect (appointmentId newStatus : String) (patchOk : Bool)
      (getRes : Option (List Appointment))
  | deleteClick (appointmentId : String)
  | dialog (action : DialogAction) (deleteOk : Bool) (getRes : Option (List Appointment))
  deriving DecidableEq, Repr

/-- When an event can occur: the search box and the status filter are there
once the page has loaded, the status select and the delete button of a record
are there while the record is in the rendered list, the status select offers
the values of `statusOptions`, and the dialog offers what
`confirmDialogActions` says. -/
def AdminEvent.enabled (s : AdminState) : AdminEvent → Bool
  | .setSearchTerm _ => !s.loading
  | .setStatusFilter _ => !s.loading
  | .statusSelect appointmentId newStatus _ _ =>
    !s.loading && s.filteredAppointments.any (fun appt => appt.id == appointmentId) &&
      statusOptions.contains newStatus
  | .deleteClick appointmentId =>
    !s.loading && s.filteredAppointments.any (fun appt => appt.id == appointmentId)
  | .dialog action _ _ => !s.loading && (confirmDialogActions (dialogOpen s)).contains action

/-- The state after an event and the effects of its handler.  A new value of
`appointments` (set by a resolved GET), of `searchTerm` or of `statusFilter`
makes the effect hook of lines 43-45 run `filterAppointments`. -/
def adminStep (s : AdminState) : AdminEvent → AdminState × List Effect
  | .setSearchTerm value => (filterAppointments { s with searchTerm := value }, [])
  | .setStatusFilter value => (filterAppointments { s with statusFilter := value }, [])
  | .statusSelect appointmentId newStatus patchOk getRes =>
    let r := handleStatusChange patchOk getRes appointmentId newStatus s
    (if patchOk && getRes.isSome then filterAppointments r.1 else r.1, r.2)
  | .deleteClick appointmentId => (setDeleteId (some appointmentId) s, [])
  | .dialog .confirm deleteOk getRes =>
    let r := handleDelete deleteOk getRes s
    (if deleteOk && getRes.isSome then filterAppointments r.1 else r.1, r.2)
  | .dialog .dismiss _ _ => (setDeleteId none s, [])

/-- Whether an effect is an error notice shown to the user (`toast.error`);
`console.error` is not shown to the user. -/
def Effect.isErrorNotice : Effect → Bool
  | .toastError _ => true
  | _ => false

/-- Whether an effect is a DELETE request. -/
def Effect.isDelete : Effect → Bool
  | .httpDelete _ => true
  | _ => false

/-- Whether an effect is a PATCH request. -/
def Effect.isPatch : Effect → Bool
  | .httpPatch _ => true
  | _ => false

/-- Whether an effect is a GET request. -/
def Effect.isGet : Effect → Bool
  | .httpGet _ => true
  | _ => false

/-- An appointment of the customer with the given name, email and phone. -/
def appointmentOf (id name email phone status : String) : Appointment :=
  { id := id, service_id := "svc-1", artist_id := "artist-1",
    appointment_date := "2024-10-04", appointment_time := "09:00",
    customer_name := name, customer_email := email, customer_phone := phone,
    notes := "", status := status,
    labels := [("service_name_en", some "Manicure"), ("artist_name", some "Lea")] }

/-- The appointment of Ana Smith. -/
def anaSmith : Appointment :=
  appointmentOf "a-1" "Ana Smith" "a.smith@example.com" "+41 79 111 11 11" "pending"

/-- The appointment of Bob Jones, whose phone carries an extension. -/
def bobJones : Appointment :=
  appointmentOf "a-2" "Bob Jones" "bob@example.com" "+41 79 222 22 22 EXT 5" "confirmed"

/-- An appointment whose customer name is `AΣ`. -/
def sigmaInName : Appointment :=
  appointmentOf "a-3" "AΣ" "n@example.com" "+41 79 333 33 33" "pending"

/-- An appointment whose phone is `AΣ`. -/
def sigmaInPhone : Appointment :=
  appointmentOf "a-4" "Carl Berg" "carl@example.com" "AΣ" "pending"

/-- An appointment whose customer name is written in capitals with accents. -/
def elodieMuller : Appointment :=
  appointmentOf "a-5" "ÉLODIE MÜLLER" "elodie@example.com" "+41 79 555 55 55" "pending"

/-- The appointments page showing the appointments of Ana Smith and Bob
Jones. -/
def adminLoaded : AdminState :=
  (fetchAppointments (some [anaSmith, bobJones]) adminInitialState).1

/-! ## The services page (`ServicesPage.jsx`) -/

/-- The `useState` variables of `ServicesPage` (lines 61-64); `activeTab`
starts as `''` and is set to what `getLocalizedText` returns. -/
structure ServicesState where
  services : List Entity
  categories : List Entity
  loading : Bool
  activeTab : JsVal
  deriving DecidableEq, Repr

/-- The state of a freshly mounted `ServicesPage`. -/
def ServicesState.initial : ServicesState :=
  { services := [], categories := [], loading := true, activeTab := .str "" }

/-- `fetchData` of `ServicesPage` (lines 67-80). -/
def ServicesState.fetchData (servicesRes categoriesRes : Option (List Entity))
    (s : ServicesState) : ServicesState × List Effect :=
  match servicesRes, categoriesRes with
  | some services, some categories =>
    ({ s with services := services, categories := categories, loading := false },
      [.httpGet "/api/services", .httpGet "/api/categories"])
  | _, _ =>
    ({ s with loading := false },
      [.httpGet "/api/services", .httpGet "/api/categories",
        .consoleError "Error fetching data:"])

/-- The effect hook of lines 93-97, commented "Set active tab when categories
load or language changes", run with `lang` the current `i18n.language`. -/
def ServicesState.activeTabEffect (lang : String) (s : ServicesState) : ServicesState :=
  match s.categories with
  | first :: _ =>
    if !s.activeTab.truthy then { s with activeTab := getLocalizedText lang first "name" }
    else s
  | [] => s

/-- `handleTabChange` (lines 119-121). -/
def ServicesState.handleTabChange (value : JsVal) (s : ServicesState) : ServicesState :=
  { s with activeTab := value }

/-- `activeCategory` (lines 109-111): the first category whose localized name
is `activeTab`, else the first category. -/
def ServicesState.activeCategory (lang : String) (s : ServicesState) : Option Entity :=
  match s.categories.find? (fun c => getLocalizedText lang c "name" == s.activeTab) with
  | some c => some c
  | none => s.categories.head?

/-- The page once its requests have been answered under the language `lang`:
`fetchData` sets the lists, then the effect hook runs. -/
def ServicesState.loaded (lang : String) (servicesRes categoriesRes : Option (List Entity))
    (s : ServicesState) : ServicesState :=
  ((s.fetchData servicesRes categoriesRes).1).activeTabEffect lang

/-- The page after `i18n.language` has changed to `lang`: `getLocalizedText`
is a new function, so the effect hook runs again. -/
def ServicesState.languageChanged (lang : String) (s : ServicesState) : ServicesState :=
  s.activeTabEffect lang

/-- Two categories with English and German names. -/
def sampleCategories : List Entity :=
  [[("id", some "cat-1"), ("name_en", some "Manicure"), ("name_de", some "Manikuere")],
   [("id", some "cat-2"), ("name_en", some "Pedicure"), ("name_de", some "Pedikuere")]]

/-! ## The contact page (`ContactPage.jsx`) -/

/-- The characters matched by `\s` in a regular expression, which are also
the characters removed by `trim()`. -/
def isWhiteSpace (c : Char) : Bool :=
  c.toNat == 9 || c.toNat == 10 || c.toNat == 11 || c.toNat == 12 || c.toNat == 13 ||
  c.toNat == 32 || c.toNat == 160 || c.toNat == 5760 ||
  (8192 ≤ c.toNat && c.toNat ≤ 8202) || c.toNat == 8232 || c.toNat == 8233 ||
  c.toNat == 8239 || c.toNat == 8287 || c.toNat == 12288 || c.toNat == 65279

/-- `String.prototype.trim`. -/
def trim (s : String) : String :=
  String.mk ((s.data.dropWhile isWhiteSpace).reverse.dropWhile isWhiteSpace).reverse

/-- A piece of a regular expression: a literal character, or `[...]+`, one or
more characters of a class. -/
inductive RegexItem where
  | lit (c : Char)
  | plus (cls : Char → Bool)

/-- Whether the whole text matches the pieces in sequence (a pattern between
`^` and `$`). -/
def regexTest (items : List RegexItem) (text : List Char) : Bool :=
  match text, items with
  | [], [] => true
  | [], _ :: _ => false
  | _ :: _, [] => false
  | d :: rest, .lit c :: more => d == c && regexTest more rest
  | d :: rest, .plus cls :: more =>
    cls d && (regexTest more rest || regexTest (.plus cls :: more) rest)

/-- The class `[^\s@]`. -/
def notSpaceOrAt (c : Char) : Bool :=
  !isWhiteSpace c && c != '@'

/-- The pattern of line 93: `[^\s@]+`, `@`, `[^\s@]+`, `.`, `[^\s@]+`, from
`^` to `$`. -/
def emailPattern : List RegexItem :=
  [.plus notSpaceOrAt, .lit '@', .plus notSpaceOrAt, .lit '.', .plus notSpaceOrAt]

/-- The `formData` of the contact form (lines 58-63). -/
structure ContactForm where
  name : String
  email : String
  phone : String
  message : String
  deriving DecidableEq, Repr

/-- The object `newErrors` of `validateForm`: for each of its three possible
keys the translation key of the message, `none` when the key is not set. -/
structure ContactErrors where
  name : Option String
  email : Option String
  message : Option String
  deriving DecidableEq, Repr

/-- `Object.keys(newErrors).length === 0`. -/
def ContactErrors.isEmpty (e : ContactErrors) : Bool :=
  e.name.isNone && e.email.isNone && e.message.isNone

/-- The object `newErrors` built by `validateForm` (lines 85-99). -/
def newErrors (formData : ContactForm) : ContactErrors :=
  { name := if !strTruthy (trim formData.name) then some "contact.required" else none,
    email :=
      if !strTruthy (trim formData.email) then some "contact.required"
      else if !regexTest emailPattern formData.email.data then some "contact.invalidEmail"
      else none,
    message := if !strTruthy (trim formData.message) then some "contact.required" else none }

/-- The value returned by `validateForm` (line 102). -/
def validateForm (formData : ContactForm) : Bool :=
  (newErrors formData).isEmpty

/-- The `useState` variables of `ContactPage` the form uses (lines 58-66). -/
structure ContactState where
  formData : ContactForm
  loading : Bool
  submitted : Bool
  errors : ContactErrors
  deriving DecidableEq, Repr

/-- What `handleSubmit` of the contact page does to the outside world. -/
inductive ContactEffect where
  | preventDefault
  | httpPost (path : String) (body : ContactForm)
  | toastSuccess (translationKey : String)
  | toastError (translationKey : String)
  | consoleError (message : String)
  | setTimeout (milliseconds : Nat)
  deriving DecidableEq, Repr

/-- Whether an effect of the contact page is a request. -/
def ContactEffect.isRequest : ContactEffect → Bool
  | .httpPost _ _ => true
  | _ => false

/-- `handleSubmit` of `ContactPage` (lines 106-134) up to its return; `postOk`
tells whether the POST resolves.  The callback given to `setTimeout` runs
later and is `ContactState.afterTimeout`. -/
def ContactState.handleSubmit (postOk : Bool) (s : ContactState) :
    ContactState × List ContactEffect :=
  let s1 := { s with errors := newErrors s.formData }
  if !validateForm s.formData then (s1, [.preventDefault])
  else if postOk then
    ({ s1 with submitted := true, loading := false },
      [.preventDefault, .httpPost "/api/contact" s.formData,
        .toastSuccess "contact.successTitle", .setTimeout 3000])
  else
    ({ s1 with loading := false },
      [.preventDefault, .httpPost "/api/contact" s.formData,
        .consoleError "Error sending message:", .toastError "contact.errorMessage"])

/-- The callback of lines 124-127, run three seconds after a successful
submission. -/
def ContactState.afterTimeout (s : ContactState) : ContactState :=
  { s with formData := { name := "", email := "", phone := "", message := "" },
           submitted := false }

/-- A text has the shape `local@domain.tld`: three non-empty parts without
whitespace and without `@`, joined by `@` and `.`. -/
def emailShape (email : String) : Prop :=
  ∃ localPart domain tld : List Char,
    email.data = localPart ++ '@' :: (domain ++ '.' :: tld) ∧
    localPart ≠ [] ∧ domain ≠ [] ∧ tld ≠ [] ∧
    (∀ c ∈ localPart, isWhiteSpace c = false ∧ c ≠ '@') ∧
    (∀ c ∈ domain, isWhiteSpace c = false ∧ c ≠ '@') ∧
    (∀ c ∈ tld, isWhiteSpace c = false ∧ c ≠ '@')

/-- A contact form filled in correctly. -/
def contactFilled : ContactState :=
  { formData := { name := "Ana Smith", email := "ana@example.com", phone := "",
                  message := "Hello" },
    loading := false, submitted := false,
    errors := { name := none, email := none, message := none } }

/-- A contact form whose email lacks the part after the dot. -/
def contactBadEmail : ContactState :=
  { contactFilled with formData := { contactFilled.formData with email := "ana@example" } }

/-! ## The gallery page (`GalleryPage.jsx`) -/

/-- An item of the gallery: its `style` is the English name of a style, its
`colors` the English names of colours (the property may be missing), and
`titles` holds `title_en`, `title_de`, `title_fr`. -/
structure GalleryItem where
  id : String
  image_url : String
  artist_name : String
  style : String
  colors : Option (List String)
  titles : Entity
  deriving DecidableEq, Repr

/-- A record of `gallery-styles` or `gallery-colors`: its English name and, in
`names`, its localized names. -/
structure GalleryTag where
  id : String
  name_en : String
  names : Entity
  deriving DecidableEq, Repr

/-- The `useState` variables of `GalleryPage` (lines 48-54). -/
structure GalleryState where
  galleryItems : List GalleryItem
  selectedStyle : String
  selectedColor : String
  selectedImage : Option GalleryItem
  loading : Bool
  styles : List GalleryTag
  colors : List GalleryTag
  deriving DecidableEq, Repr

/-- The state of a freshly mounted `GalleryPage`. -/
def GalleryState.initial : GalleryState :=
  { galleryItems := [], selectedStyle := "all", selectedColor := "all",
    selectedImage := none, loading := true, styles := [], colors := [] }

/-- An entry of `defaultGallery`. -/
def defaultItem (id imageUrl titleEn titleDe titleFr style : String) (colors : List String) :
    GalleryItem :=
  { id := id, image_url := imageUrl, artist_name := "Artist", style := style,
    colors := some colors,
    titles := [("title_en", some titleEn), ("title_de", some titleDe),
      ("title_fr", some titleFr)] }

/-- The list `defaultGallery` (lines 57-108). -/
def defaultGallery : List GalleryItem :=
  [defaultItem "1" "https://images.unsplash.com/photo-1611821828952-3453ba0f9408"
     "Elegant Minimalist" "Eleganter Minimalist" "Minimaliste Élégant" "Minimalist"
     ["Nude", "White"],
   defaultItem "2" "https://images.unsplash.com/photo-1698308233758-d55c98fd7444"
     "Black & Silver Art" "Schwarz & Silber Kunst" "Art Noir & Argent" "Modern"
     ["Black", "Silver"],
   defaultItem "3" "https://images.unsplash.com/photo-1617472556169-c5547fde3282"
     "Clean Design" "Sauberes Design" "Design Épuré" "Minimalist" ["Nude", "Pink"],
   defaultItem "4" "https://images.unsplash.com/photo-1571290274554-6a2eaa771e5f"
     "Colorful Geometric" "Buntes Geometrisch" "Géométrique Coloré" "Modern"
     ["Red", "Orange", "Yellow"],
   defaultItem "5" "https://images.pexels.com/photos/6429663/pexels-photo-6429663.jpeg"
     "Professional Colorful" "Professionell Bunt" "Coloré Professionnel" "Artistic"
     ["Pink", "Purple", "Blue"],
   defaultItem "6" "https://images.unsplash.com/photo-1648844421638-0655d00dd5ba"
     "Glitter Glamour" "Glitzer Glamour" "Glamour Pailletté" "Glitter" ["Gold", "Silver"],
   defaultItem "7" "https://images.unsplash.com/photo-1648844421727-cde6c4246b13"
     "Elegant Glitter" "Eleganter Glitzer" "Paillettes Élégantes" "Glitter" ["Gold", "Nude"],
   defaultItem "8" "https://images.unsplash.com/photo-1648844421753-351afd50486a"
     "Professional Glitter" "Professioneller Glitzer" "Paillettes Professionnelles" "Glitter"
     ["Silver", "White"],
   defaultItem "9" "https://images.pexels.com/photos/3997379/pexels-photo-3997379.jpeg"
     "Colorful Display" "Bunte Anzeige" "Affichage Coloré" "Artistic"
     ["Red", "Blue", "Green", "Yellow"],
   defaultItem "10" "https://images.pexels.com/photos/6830805/pexels-photo-6830805.jpeg"
     "Professional Art" "Professionelle Kunst" "Art Professionnel" "French"
     ["Nude", "White"]]

/-- The array `[...new Set(values)]`: the values in the order of their first
occurrence, each once. -/
def uniqueValues (values : List String) : List String :=
  values.foldl (fun seen value => if seen.contains value then seen else seen ++ [value]) []

/-- The colours of an item, `item.colors || []`. -/
def GalleryItem.colorList (item : GalleryItem) : List String :=
  match item.colors with
  | some colors => colors
  | none => []

/-- `fetchGalleryData` (lines 111-138); each argument is the outcome of one
of the three GET requests awaited together, `none` for a rejected one. -/
def fetchGalleryData (galleryRes : Option (List GalleryItem))
    (stylesRes colorsRes : Option (List GalleryTag)) (s : GalleryState) :
    GalleryState × List Effect :=
  let requests : List Effect :=
    [.httpGet "/api/gallery", .httpGet "/api/gallery-styles", .httpGet "/api/gallery-colors"]
  match galleryRes, stylesRes, colorsRes with
  | some gallery, some styles, some colors =>
    let items := if gallery.length > 0 then gallery else defaultGallery
    let usedStylesEn := uniqueValues (items.map (fun item => item.style))
    let usedColorsEn := uniqueValues (items.flatMap (fun item => item.colorList))
    ({ s with galleryItems := items,
              styles := styles.filter (fun style => usedStylesEn.contains style.name_en),
              colors := colors.filter (fun color => usedColorsEn.contains color.name_en),
              loading := false },
      requests)
  | _, _, _ =>
    ({ s with galleryItems := defaultGallery, loading := false },
      requests ++ [.consoleError "Error fetching gallery data:"])

/-- `filteredItems` (lines 151-163). -/
def filteredItems (s : GalleryState) : List GalleryItem :=
  let byStyle :=
    if s.selectedStyle != "all" then
      s.galleryItems.filter (fun item => item.style == s.selectedStyle)
    else s.galleryItems
  if s.selectedColor != "all" then
    byStyle.filter (fun item =>
      match item.colors with
      | some colors => colors.contains s.selectedColor
      | none => false)
  else byStyle

/-- `handleStyleChange` (lines 166-168). -/
def handleStyleChange (value : String) (s : GalleryState) : GalleryState :=
  { s with selectedStyle := value }

/-- `handleColorChange` (lines 170-172). -/
def handleColorChange (value : String) (s : GalleryState) : GalleryState :=
  { s with selectedColor := value }

/-- The values of the items of the style select (lines 207-214): `all`, then
the English name of each style of `styles`. -/
def styleOptions (s : GalleryState) : List String :=
  "all" :: s.styles.map (fun style => style.name_en)

/-- A gallery with an item of a style named `all` and an item of the style
`Modern`. -/
def galleryWithAll : List GalleryItem :=
  [defaultItem "g-1" "https://example.com/1.jpg" "One" "Eins" "Un" "all" ["Nude"],
   defaultItem "g-2" "https://example.com/2.jpg" "Two" "Zwei" "Deux" "Modern" ["Black"]]

/-- A style whose English name is `all`. -/
def styleNamedAll : GalleryTag :=
  { id := "st-1", name_en := "all", names := [("name_de", some "alle")] }

/-- The style `Modern`. -/
def styleModern : GalleryTag :=
  { id := "st-2", name_en := "Modern", names := [("name_de", some "Modern")] }

/-- The style `Vintage`, which no item of the default gallery has. -/
def styleVintage : GalleryTag :=
  { id := "st-3", name_en := "Vintage", names := [("name_de", some "Vintage")] }

/-! ## The response cache behind `useCachedApi` -/

/-- Modelled from the spec: `CacheEntry<T>` of the response cache used through
the hook `useCachedApi` of `@/hooks/useApi`, which is not among the sources
(only its caller `HomePage.jsx` is).  An entry holds the value `T | undefined`,
the flags `loading` and `error`, and the timestamp `fetchedAt`. -/
structure CacheEntry (α : Type) where
  value : Option α
  loading : Bool
  error : Bool
  fetchedAt : Nat
  deriving DecidableEq, Repr

/-- Modelled from the spec: the response cache, a keyed in-memory store of
entries. -/
abbrev ResponseCache (α : Type) := List (String × CacheEntry α)

/-- The entry stored under a key. -/
def ResponseCache.entry {α : Type} (c : ResponseCache α) (key : String) :
    Option (CacheEntry α) :=
  c.lookup key

/-- The cache with the entry of a key replaced. -/
def ResponseCache.put {α : Type} (c : ResponseCache α) (key : String) (e : CacheEntry α) :
    ResponseCache α :=
  (key, e) :: c.filter (fun kv => kv.1 != key)

/-- Modelled from the spec: the triple `(data, loading, error)` a caller of
`get_or_fetch` is given. -/
structure CacheView (α : Type) where
  data : Option α
  loading : Bool
  error : Bool
  deriving DecidableEq, Repr

/-- Modelled from the spec: what the callers subscribed to a key see, the
entry of the key. -/
def ResponseCache.view {α : Type} (c : ResponseCache α) (key : String) : CacheView α :=
  match c.entry key with
  | some e => { data := e.value, loading := e.loading, error := e.error }
  | none => { data := none, loading := false, error := false }

/-- Modelled from the spec: `get_or_fetch(key, fetcher)`.  It returns cached
data at once if present and not stale; while a fetch of the key is under way
it joins it; otherwise it calls `fetcher()` and marks the entry as loading,
keeping a previous value readable.  The result is the new cache, whether
`fetcher()` was called, and the triple given to the caller. -/
def getOrFetch {α : Type} (staleAfter now : Nat) (key : String) (c : ResponseCache α) :
    ResponseCache α × Bool × CacheView α :=
  match c.entry key with
  | some e =>
    if e.loading then (c, false, { data := e.value, loading := true, error := e.error })
    else if e.value.isSome && decide (now < e.fetchedAt + staleAfter) then
      (c, false, { data := e.value, loading := false, error := e.error })
    else
      (c.put key { e with loading := true }, true,
        { data := e.value, loading := true, error := e.error })
  | none =>
    (c.put key { value := none, loading := true, error := false, fetchedAt := 0 }, true,
      { data := none, loading := true, error := false })

/-- Modelled from the spec: the end of the fetch of a key.  A fulfilled fetch
stores its value; a failed fetch sets `error`, leaves the previous value and
is not retried. -/
def resolveFetch {α : Type} (now : Nat) (key : String) (result : Option α)
    (c : ResponseCache α) : ResponseCache α :=
  match c.entry key, result with
  | some _, some value =>
    c.put key { value := some value, loading := false, error := false, fetchedAt := now }
  | some e, none => c.put key { e with loading := false, error := true }
  | none, _ => c

/-- Modelled from the spec: `invalidate(key)` drops the entry of the key. -/
def invalidate {α : Type} (key : String) (c : ResponseCache α) : ResponseCache α :=
  c.filter (fun kv => kv.1 != key)

/-! ## Lemmas -/

theorem jsTruthy_iff (v : JsVal) : v.truthy = true ↔ v.isNonEmptyStr := by
  cases v with
  | undefined => simp [JsVal.truthy, JsVal.isNonEmptyStr]
  | null => simp [JsVal.truthy, JsVal.isNonEmptyStr]
  | str s => simp [JsVal.truthy, JsVal.isNonEmptyStr]

theorem strTruthy_iff (s : String) : strTruthy s = true ↔ s ≠ "" := by
  simp [strTruthy]

theorem dateTruthy_iff (d : DateVal) : d.truthy = true ↔ ∃ t, d = .date t := by
  cases d <;> simp [DateVal.truthy]

theorem requiredMissing_eq_false_iff (formData : Draft) :
    requiredMissing formData = false ↔ formData.requiredFilled := by
  simp only [requiredMissing, Draft.requiredFilled, Bool.or_eq_false_iff,
    Bool.not_eq_false', strTruthy_iff, dateTruthy_iff]
  tauto

theorem requiredMissing_eq_true_iff (formData : Draft) :
    requiredMissing formData = true ↔ ¬ formData.requiredFilled := by
  rw [← requiredMissing_eq_false_iff]
  simp

theorem handleSubmit_effects_succeeded (s : BookingState) (t : Int)
    (hm : requiredMissing s.formData = false) (ht : s.formData.appointment_date = .date t) :
    (handleSubmit true s).2 =
      [.preventDefault, .httpPost appointmentsPath (appointmentData s.formData t),
        .toastSuccess "booking.bookingSuccess"] := by
  simp [handleSubmit, hm, ht]

theorem filledDraft_requiredFilled : filledDraft.requiredFilled :=
  ⟨by decide, by decide, ⟨midnight 19000, rfl⟩, by decide, by decide, by decide, by decide⟩

theorem filledState_posts :
    Effect.httpPost appointmentsPath (appointmentData filledDraft (midnight 19000))
      ∈ (handleSubmit true filledState).2 := by
  rw [handleSubmit_effects_succeeded filledState (midnight 19000)
    ((requiredMissing_eq_false_iff _).2 filledDraft_requiredFilled) rfl]
  exact List.mem_cons_of_mem _ (List.mem_cons_self _ _)

theorem toDigitsCore_succ (fuel n : Nat) (ds : List Char) :
    Nat.toDigitsCore 10 (fuel + 1) n ds =
      if n / 10 = 0 then Nat.digitChar (n % 10) :: ds
      else Nat.toDigitsCore 10 fuel (n / 10) (Nat.digitChar (n % 10) :: ds) := by
  simp [Nat.toDigitsCore]

theorem toDigits_lt_10000 (n : Nat) (h : n < 10000) :
    Nat.toDigits 10 n =
      if n < 10 then [Nat.digitChar n]
      else if n < 100 then [Nat.digitChar (n / 10), Nat.digitChar (n % 10)]
      else if n < 1000 then
        [Nat.digitChar (n / 100), Nat.digitChar (n / 10 % 10), Nat.digitChar (n % 10)]
      else [Nat.digitChar (n / 1000), Nat.digitChar (n / 100 % 10),
        Nat.digitChar (n / 10 % 10), Nat.digitChar (n % 10)] := by
  unfold Nat.toDigits
  by_cases h1 : n < 10
  · have e : n / 10 = 0 := by omega
    have e2 : n % 10 = n := by omega
    simp [toDigitsCore_succ, h1, e, e2]
  · by_cases h2 : n < 100
    · obtain ⟨k, rfl⟩ : ∃ k, n = k + 1 := ⟨n - 1, by omega⟩
      have e1 : (k + 1) / 10 ≠ 0 := by omega
      have e2 : (k + 1) / 10 / 10 = 0 := by omega
      have e3 : (k + 1) / 10 % 10 = (k + 1) / 10 := by omega
      simp [toDigitsCore_succ, h1, h2, e1, e2, e3]
    · by_cases h3 : n < 1000
      · obtain ⟨k, rfl⟩ : ∃ k, n = k + 2 := ⟨n - 2, by omega⟩
        have e1 : (k + 2) / 10 ≠ 0 := by omega
        have e2 : (k + 2) / 10 / 10 ≠ 0 := by omega
        have e3 : (k + 2) / 10 / 10 / 10 = 0 := by omega
        have e4 : (k + 2) / 10 / 10 % 10 = (k + 2) / 100 := by omega
        rw [show k + 2 + 1 = k + 1 + 1 + 1 from rfl]
        simp [toDigitsCore_succ, h1, h2, h3, e1, e2, e3, e4]
      · obtain ⟨k, rfl⟩ : ∃ k, n = k + 3 := ⟨n - 3, by omega⟩
        have e1 : (k + 3) / 10 ≠ 0 := by omega
        have e2 : (k + 3) / 10 / 10 ≠ 0 := by omega
        have e3 : (k + 3) / 10 / 10 / 10 ≠ 0 := by omega
        have e4 : (k + 3) / 10 / 10 / 10 / 10 = 0 := by omega
        have e5 : (k + 3) / 10 / 10 / 10 % 10 = (k + 3) / 1000 := by omega
        have e6 : (k + 3) / 10 / 10 % 10 = (k + 3) / 100 % 10 := by omega
        rw [show k + 3 + 1 = k + 1 + 1 + 1 + 1 from rfl]
        simp [toDigitsCore_succ, h1, h2, h3, e1, e2, e3, e4, e5, e6]

theorem addLeadingZeros_four (n : Nat) (h : n < 10000) :
    addLeadingZeros (n : Int) 4 =
      String.mk [Nat.digitChar (n / 1000), Nat.digitChar (n / 100 % 10),
        Nat.digitChar (n / 10 % 10), Nat.digitChar (n % 10)] := by
  have hd : (toString n).data = Nat.toDigits 10 n := rfl
  have hl : (toString n).length = (Nat.toDigits 10 n).length := rfl
  have hneg : ¬ ((n : Int) < 0) := by omega
  apply String.ext
  simp only [addLeadingZeros, Int.natAbs_ofNat, hneg, if_false, String.data_append, hd, hl]
  rw [toDigits_lt_10000 n h]
  by_cases h1 : n < 10
  · have a1 : n / 1000 = 0 := by omega
    have a2 : n / 100 % 10 = 0 := by omega
    have a3 : n / 10 % 10 = 0 := by omega
    have a4 : n % 10 = n := by omega
    simp [h1, a1, a2, a3, a4, List.replicate, show Nat.digitChar 0 = '0' from rfl]
  · by_cases h2 : n < 100
    · have a1 : n / 1000 = 0 := by omega
      have a2 : n / 100 % 10 = 0 := by omega
      have a3 : n / 10 % 10 = n / 10 := by omega
      simp [h1, h2, a1, a2, a3, List.replicate, show Nat.digitChar 0 = '0' from rfl]
    · by_cases h3 : n < 1000
      · have a1 : n / 1000 = 0 := by omega
        have a2 : n / 100 % 10 = n / 100 := by omega
        simp [h1, h2, h3, a1, a2, List.replicate, show Nat.digitChar 0 = '0' from rfl]
      · simp [h1, h2, h3]

theorem addLeadingZeros_two (n : Nat) (h : n < 100) :
    addLeadingZeros (n : Int) 2 =
      String.mk [Nat.digitChar (n / 10), Nat.digitChar (n % 10)] := by
  have hd : (toString n).data = Nat.toDigits 10 n := rfl
  have hl : (toString n).length = (Nat.toDigits 10 n).length := rfl
  have hneg : ¬ ((n : Int) < 0) := by omega
  apply String.ext
  simp only [addLeadingZeros, Int.natAbs_ofNat, hneg, if_false, String.data_append, hd, hl]
  rw [toDigits_lt_10000 n (by omega)]
  by_cases h1 : n < 10
  · have a1 : n / 10 = 0 := by omega
    have a4 : n % 10 = n := by omega
    simp [h1, a1, a4, List.replicate, show Nat.digitChar 0 = '0' from rfl]
  · simp [h1, h]

theorem civilFromDays_bounds (day : Int) :
    1 ≤ (civilFromDays day).2.1 ∧ (civilFromDays day).2.1 ≤ 12 ∧
    1 ≤ (civilFromDays day).2.2 ∧ (civilFromDays day).2.2 ≤ 31 := by
  simp only [civilFromDays]
  split_ifs <;> omega

theorem formatYMD_eq_isoDate (t : Int)
    (hy : 1 ≤ (civilFromDays (dayOf t)).1 ∧ (civilFromDays (dayOf t)).1 ≤ 9999) :
    formatYMD t =
      isoDate (civilFromDays (dayOf t)).1.toNat (civilFromDays (dayOf t)).2.1.toNat
        (civilFromDays (dayOf t)).2.2.toNat := by
  obtain ⟨hm1, hm2, hd1, hd2⟩ := civilFromDays_bounds (dayOf t)
  simp only [formatYMD]
  generalize civilFromDays (dayOf t) = c at *
  obtain ⟨y, m, d⟩ := c
  simp only at hy hm1 hm2 hd1 hd2
  obtain ⟨y, rfl⟩ : ∃ n : Nat, y = n := ⟨y.toNat, by omega⟩
  obtain ⟨m, rfl⟩ : ∃ n : Nat, m = n := ⟨m.toNat, by omega⟩
  obtain ⟨d, rfl⟩ : ∃ n : Nat, d = n := ⟨d.toNat, by omega⟩
  have hpos : (y : Int) > 0 := by omega
  simp only [hpos, if_true, Int.toNat_ofNat]
  rw [addLeadingZeros_four y (by omega), addLeadingZeros_two m (by omega),
    addLeadingZeros_two d (by omega)]
  rfl

theorem handleSubmit_effects_failed (s : BookingState) (t : Int)
    (hm : requiredMissing s.formData = false) (ht : s.formData.appointment_date = .date t) :
    (handleSubmit false s).2 =
      [.preventDefault, .httpPost appointmentsPath (appointmentData s.formData t),
        .consoleError "Error creating appointment:",
        .toastError "Failed to book appointment. Please try again."] := by
  simp [handleSubmit, hm, ht]

theorem handleSubmit_postedBodies (postOk : Bool) (s : BookingState) (t : Int)
    (hm : requiredMissing s.formData = false) (ht : s.formData.appointment_date = .date t) :
    postedBodies (handleSubmit postOk s).2 = [appointmentData s.formData t] := by
  cases postOk
  · rw [handleSubmit_effects_failed s t hm ht]; rfl
  · rw [handleSubmit_effects_succeeded s t hm ht]; rfl

theorem includesChars_iff (haystack needle : List Char) :
    includesChars haystack needle = true ↔ needle <:+: haystack := by
  induction haystack with
  | nil => simp [includesChars]
  | cons c rest ih =>
    rw [includesChars, Bool.or_eq_true, ih, List.infix_cons_iff, List.isPrefixOf_iff_prefix]

theorem includes_empty (haystack : String) : includes haystack "" = true := by
  rw [includes, includesChars_iff]
  exact List.nil_infix

theorem toLowerCase_empty : toLowerCase "" = "" := rfl

theorem filtered_all (appointments : List Appointment) (searchTerm : String) :
    filtered appointments searchTerm "all" =
      if strTruthy searchTerm then appointments.filter (matchesSearch searchTerm)
      else appointments := by
  simp [filtered]

theorem filtered_sublist (appointments : List Appointment) (searchTerm statusFilter : String) :
    List.Sublist (filtered appointments searchTerm statusFilter) appointments := by
  unfold filtered
  split_ifs
  · exact (List.filter_sublist _).trans (List.filter_sublist _)
  · exact List.filter_sublist _
  · exact List.filter_sublist _
  · exact List.Sublist.refl _

theorem handleSubmit_state_eq_start_settle (postOk : Bool) (s : BookingState) :
    (handleSubmit postOk s).1 =
      if postedBodies (handleSubmitStart s).2 = [] then (handleSubmitStart s).1
      else (handleSubmitSettle postOk (handleSubmitStart s).1).1 := by
  unfold handleSubmit handleSubmitStart handleSubmitSettle
  by_cases hm : requiredMissing s.formData = true
  · simp [hm, postedBodies]
  · cases hd : s.formData.appointment_date <;> cases postOk <;> simp [hm, hd, postedBodies]

theorem step_preserves_reset_draft (s : BookingState) (e : BookingEvent)
    (hinv : s.success = true → s.formData = emptyDraft) (he : e.enabled s = true) :
    (step s e).success = true → (step s e).formData = emptyDraft := by
  have hform : view s = .form → s.success = false := by
    unfold view
    split_ifs <;> simp_all
  cases e with
  | fetchSettled servicesRes artistsRes =>
    cases servicesRes <;> cases artistsRes <;> simpa [step, fetchData] using hinv
  | serviceChange value =>
    have := hform (by simpa [BookingEvent.enabled] using he)
    simp [step, setFormData, this]
  | artistChange value =>
    have := hform (by simpa [BookingEvent.enabled] using he)
    simp [step, setFormData, this]
  | dateChange date =>
    have := hform (by simpa [BookingEvent.enabled] using he)
    simp [step, setFormData, this]
  | timeChange value =>
    have := hform (by simpa [BookingEvent.enabled] using he)
    simp [step, setFormData, this]
  | inputChange field value =>
    have := hform (by simpa [BookingEvent.enabled] using he)
    simp [step, setFormData, this]
  | submit =>
    have hs : s.success = false :=
      hform (by simp [BookingEvent.enabled] at he; exact he.1)
    simp only [step, handleSubmitStart]
    split_ifs
    · simp [hs]
    · cases s.formData.appointment_date <;> simp [hs]
  | postSettled postOk =>
    cases postOk
    · simpa [step, handleSubmitSettle] using hinv
    · simp [step, handleSubmitSettle]
  | reset => simp [step, handleReset]

theorem run_preserves_reset_draft (events : List BookingEvent) :
    ∀ s s' : BookingState, (s.success = true → s.formData = emptyDraft) →
      run s events = some s' → (s'.success = true → s'.formData = emptyDraft) := by
  induction events with
  | nil =>
    intro s s' hinv hrun
    simp only [run, Option.some.injEq] at hrun
    subst hrun
    exact hinv
  | cons e rest ih =>
    intro s s' hinv hrun
    by_cases he : e.enabled s = true
    · simp only [run, he, if_true] at hrun
      exact ih (step s e) s' (step_preserves_reset_draft s e hinv he) hrun
    · simp [run, he] at hrun

theorem fetchDataAnswer_both (servicesRes artistsRes : Option (List Entity))
    (s : BookingState) :
    (fetchDataAnswer (.artists artistsRes)
        (fetchDataAnswer (.services servicesRes) catalogLoadStart s).1
        (fetchDataAnswer (.services servicesRes) catalogLoadStart s).2).2
      = (fetchData servicesRes artistsRes s).1 ∧
    (fetchDataAnswer (.services servicesRes)
        (fetchDataAnswer (.artists artistsRes) catalogLoadStart s).1
        (fetchDataAnswer (.artists artistsRes) catalogLoadStart s).2).2
      = (fetchData servicesRes artistsRes s).1 := by
  cases servicesRes <;> cases artistsRes <;>
    simp [fetchDataAnswer, catalogLoadStart, fetchData]

theorem filledState_submit_enabled : BookingEvent.enabled filledState .submit = true := by
  decide

theorem regexTest_nil (text : List Char) : regexTest [] text = true ↔ text = [] := by
  cases text <;> simp [regexTest]

theorem regexTest_lit (c : Char) (more : List RegexItem) (text : List Char) :
    regexTest (.lit c :: more) text = true ↔
      ∃ rest, text = c :: rest ∧ regexTest more rest = true := by
  cases text with
  | nil => simp [regexTest]
  | cons d rest =>
    simp only [regexTest, Bool.and_eq_true, beq_iff_eq, List.cons.injEq]
    constructor
    · rintro ⟨rfl, h⟩
      exact ⟨rest, ⟨rfl, rfl⟩, h⟩
    · rintro ⟨r, ⟨rfl, rfl⟩, h⟩
      exact ⟨rfl, h⟩

theorem regexTest_plus (cls : Char → Bool) (more : List RegexItem) (text : List Char) :
    regexTest (.plus cls :: more) text = true ↔
      ∃ a rest, a ≠ [] ∧ (∀ x ∈ a, cls x = true) ∧ text = a ++ rest ∧
        regexTest more rest = true := by
  induction text with
  | nil =>
    simp only [regexTest, Bool.false_eq_true, false_iff]
    rintro ⟨a, rest, ha, _, h, _⟩
    cases a with
    | nil => exact ha rfl
    | cons x a => cases h
  | cons d tl ih =>
    simp only [regexTest, Bool.and_eq_true, Bool.or_eq_true]
    constructor
    · rintro ⟨hd, h | h⟩
      · exact ⟨[d], tl, by simp, by simpa using hd, rfl, h⟩
      · obtain ⟨a, rest, _, hall, rfl, hr⟩ := ih.1 h
        refine ⟨d :: a, rest, by simp, ?_, rfl, hr⟩
        intro x hx
        rcases List.mem_cons.1 hx with rfl | hx
        · exact hd
        · exact hall x hx
    · rintro ⟨a, rest, ha, hall, h, hr⟩
      cases a with
      | nil => exact absurd rfl ha
      | cons x a =>
        simp only [List.cons_append, List.cons.injEq] at h
        obtain ⟨rfl, rfl⟩ := h
        refine ⟨hall d (List.mem_cons_self _ _), ?_⟩
        cases a with
        | nil => exact Or.inl hr
        | cons y a =>
          exact Or.inr (ih.2 ⟨y :: a, rest, by simp,
            fun z hz => hall z (List.mem_cons_of_mem _ hz), rfl, hr⟩)

theorem notSpaceOrAt_iff (c : Char) :
    notSpaceOrAt c = true ↔ isWhiteSpace c = false ∧ c ≠ '@' := by
  simp [notSpaceOrAt]

theorem regexTest_emailPattern (email : String) :
    regexTest emailPattern email.data = true ↔ emailShape email := by
  unfold emailPattern emailShape
  simp only [regexTest_plus, regexTest_lit, regexTest_nil, notSpaceOrAt_iff]
  constructor
  · rintro ⟨a, r1, ha, halla, h1, r2, rfl, b, r3, hb, hallb, rfl, r4, rfl, c, r5, hc, hallc,
      rfl, rfl⟩
    exact ⟨a, b, c, by simpa using h1, ha, hb, hc, halla, hallb, hallc⟩
  · rintro ⟨a, b, c, h, ha, hb, hc, halla, hallb, hallc⟩
    exact ⟨a, _, ha, halla, h, _, rfl, b, _, hb, hallb, rfl, _, rfl, c, [], hc, hallc,
      by simp, rfl⟩

theorem all_of_all_dropWhile (p : Char → Bool) (l : List Char)
    (h : ∀ x ∈ l.dropWhile p, p x = true) : ∀ x ∈ l, p x = true := by
  induction l with
  | nil => simp
  | cons a l ih =>
    by_cases ha : p a = true
    · simp only [List.dropWhile_cons, ha, if_true] at h
      intro x hx
      rcases List.mem_cons.1 hx with rfl | hx
      · exact ha
      · exact ih h x hx
    · have hd : (a :: l).dropWhile p = a :: l := by simp [List.dropWhile_cons, ha]
      rw [hd] at h
      exact absurd (h a (List.mem_cons_self _ _)) ha

theorem dropWhile_eq_nil_of_all (p : Char → Bool) (l : List Char)
    (h : ∀ x ∈ l, p x = true) : l.dropWhile p = [] := by
  induction l with
  | nil => rfl
  | cons a l ih =>
    have ha := h a (List.mem_cons_self _ _)
    simp only [List.dropWhile_cons, ha, if_true]
    exact ih (fun x hx => h x (List.mem_cons_of_mem _ hx))

theorem trim_eq_empty_iff (s : String) :
    trim s = "" ↔ ∀ c ∈ s.data, isWhiteSpace c = true := by
  unfold trim
  constructor
  · intro h
    have h1 : ((s.data.dropWhile isWhiteSpace).reverse.dropWhile isWhiteSpace).reverse = [] :=
      congrArg String.data h
    have h2 : (s.data.dropWhile isWhiteSpace).reverse.dropWhile isWhiteSpace = [] :=
      List.reverse_eq_nil_iff.1 h1
    have h3 : ∀ x ∈ (s.data.dropWhile isWhiteSpace).reverse, isWhiteSpace x = true :=
      all_of_all_dropWhile _ _ (by simp [h2])
    exact all_of_all_dropWhile _ _ (fun x hx => h3 x (List.mem_reverse.2 hx))
  · intro h
    have h1 : s.data.dropWhile isWhiteSpace = [] := dropWhile_eq_nil_of_all _ _ h
    simp [h1]

theorem trim_ne_empty_of_emailShape (email : String) (h : emailShape email) :
    trim email ≠ "" := by
  obtain ⟨a, b, c, he, ha, _, _, halla, _, _⟩ := h
  intro ht
  have hall := (trim_eq_empty_iff email).1 ht
  cases a with
  | nil => exact ha rfl
  | cons x a =>
    have hx : x ∈ email.data := by rw [he]; simp
    have := hall x hx
    rw [(halla x (List.mem_cons_self _ _)).1] at this
    exact Bool.false_ne_true this

theorem validateForm_iff (formData : ContactForm) :
    validateForm formData = true ↔
      trim formData.name ≠ "" ∧ trim formData.message ≠ "" ∧
      trim formData.email ≠ "" ∧ emailShape formData.email := by
  rw [← regexTest_emailPattern]
  simp only [validateForm, ContactErrors.isEmpty, newErrors, strTruthy]
  by_cases h1 : trim formData.name = "" <;> by_cases h2 : trim formData.email = "" <;>
    by_cases h3 : trim formData.message = "" <;>
    by_cases h4 : regexTest emailPattern formData.email.data = true <;>
    simp [h1, h2, h3, h4]

theorem mem_foldl_unique (values : List String) :
    ∀ (seen : List String) (x : String),
      x ∈ values.foldl
          (fun seen value => if seen.contains value then seen else seen ++ [value]) seen ↔
        x ∈ seen ∨ x ∈ values := by
  induction values with
  | nil => simp
  | cons v rest ih =>
    intro seen x
    rw [List.foldl_cons, ih]
    by_cases hv : seen.contains v = true
    · have hmem : v ∈ seen := by simpa using hv
      simp only [hv, if_true, List.mem_cons]
      constructor
      · rintro (h | h)
        · exact Or.inl h
        · exact Or.inr (Or.inr h)
      · rintro (h | rfl | h)
        · exact Or.inl h
        · exact Or.inl hmem
        · exact Or.inr h
    · have hv2 : seen.contains v = false := by simpa using hv
      simp only [hv2, Bool.false_eq_true, if_false, List.mem_append, List.mem_singleton,
        List.mem_cons]
      tauto

theorem mem_uniqueValues (values : List String) (x : String) :
    x ∈ uniqueValues values ↔ x ∈ values := by
  unfold uniqueValues
  rw [mem_foldl_unique]
  simp

theorem uniqueValues_contains_style (items : List GalleryItem) (name : String) :
    (uniqueValues (items.map (fun item => item.style))).contains name
      = items.any (fun item => item.style == name) := by
  rw [Bool.eq_iff_iff, List.contains_iff_exists_mem_beq]
  simp only [beq_iff_eq, exists_eq_right', mem_uniqueValues, List.mem_map, List.any_eq_true]

theorem fetchGalleryData_styles (gallery : List GalleryItem) (styles colors : List GalleryTag)
    (s : GalleryState) :
    (fetchGalleryData (some gallery) (some styles) (some colors) s).1.styles
      = styles.filter (fun style =>
          (fetchGalleryData (some gallery) (some styles) (some colors) s).1.galleryItems.any
            (fun item => item.style == style.name_en)) := by
  simp only [fetchGalleryData, uniqueValues_contains_style]

theorem entry_put {α : Type} (c : ResponseCache α) (key : String) (e : CacheEntry α) :
    (c.put key e).entry key = some e := by
  simp [ResponseCache.put, ResponseCache.entry, List.lookup]

/-! ## Localized fields -/

/-- C1.  For a record whose English field is a non-empty string and a language
among de, fr, en, `getLocalizedText` returns the field of the language when
that is a non-empty string and the English field otherwise, and the result is
a non-empty string. -/
theorem getLocalizedText_supported (E : Entity) (F L : String)
    (hL : L ∈ languages) (hen : (E.get (F ++ "_en")).isNonEmptyStr) :
    ((E.get (F ++ "_" ++ L)).isNonEmptyStr →
        getLocalizedText L E F = E.get (F ++ "_" ++ L)) ∧
    (¬ (E.get (F ++ "_" ++ L)).isNonEmptyStr →
        getLocalizedText L E F = E.get (F ++ "_en")) ∧
    (getLocalizedText L E F).isNonEmptyStr := by
  have _ := hL
  unfold getLocalizedText jsOr
  by_cases h : (E.get (F ++ "_" ++ L)).truthy = true
  · have h2 := (jsTruthy_iff _).1 h
    simp [h, h2]
  · have h2 : ¬ (E.get (F ++ "_" ++ L)).isNonEmptyStr := fun c => h ((jsTruthy_iff _).2 c)
    simp [h, h2, hen]

/-- Witness of C1: the German name of `manicure`. -/
theorem getLocalizedText_supported_witness :
    "de" ∈ languages ∧ (manicure.get "name_en").isNonEmptyStr ∧
    getLocalizedText "de" manicure "name" = manicure.get "name_de" ∧
    manicure.get "name_de" = .str "Manikuere" ∧
    (getLocalizedText "de" manicure "name").isNonEmptyStr := by
  have hen : (manicure.get ("name" ++ "_en")).isNonEmptyStr :=
    ⟨"Manicure", by decide, by decide⟩
  have hde : (manicure.get ("name" ++ "_" ++ "de")).isNonEmptyStr :=
    ⟨"Manikuere", by decide, by decide⟩
  have h := getLocalizedText_supported manicure "name" "de" (by decide) hen
  exact ⟨by decide, hen, h.1 hde, by decide, h.2.2⟩

/-- C2, as stated, fails: on a record that has neither the German nor the
English name, `getLocalizedText` does not return the empty string. -/
theorem getLocalizedText_missing_not_empty :
    unnamed.get "name_de" = .undefined ∧ unnamed.get "name_en" = .undefined ∧
    getLocalizedText "de" unnamed "name" ≠ .str "" := by
  decide

/-- C2, amended.  `getLocalizedText` has a value for every record, field and
language, and when neither the field of the language nor the English field is
present on the record that value is `undefined`. -/
theorem getLocalizedText_missing (E : Entity) (F L : String)
    (hL : E.get (F ++ "_" ++ L) = .undefined) (hen : E.get (F ++ "_en") = .undefined) :
    (∃ v, getLocalizedText L E F = v) ∧ getLocalizedText L E F = .undefined := by
  refine ⟨⟨_, rfl⟩, ?_⟩
  simp [getLocalizedText, jsOr, hL, hen]

/-- Witness of C2 amended: the record without a name, in German. -/
theorem getLocalizedText_missing_witness :
    getLocalizedText "de" unnamed "name" = .undefined :=
  (getLocalizedText_missing unnamed "name" "de" (by decide) (by decide)).2

/-- C3, evaluated on the code: under the Swiss German tag `de-CH` the record
`manicure` resolves to its English name, under `de` to its German name. -/
theorem getLocalizedText_de_CH :
    getLocalizedText "de-CH" manicure "name" = .str "Manicure" ∧
    getLocalizedText "de" manicure "name" = .str "Manikuere" ∧
    getLocalizedText "de-CH" manicure "name" ≠ getLocalizedText "de" manicure "name" := by
  decide

/-! ## Validation and submission -/

/-- C4.  The guard of `handleSubmit` lets a draft through exactly when its
seven required fields are non-empty, and the value of `notes` has no influence
on the guard. -/
theorem guard_accepts_iff_required_filled (formData : Draft) :
    (requiredMissing formData = false ↔
      formData.service_id ≠ "" ∧ formData.artist_id ≠ "" ∧
      (∃ t, formData.appointment_date = .date t) ∧ formData.appointment_time ≠ "" ∧
      formData.customer_name ≠ "" ∧ formData.customer_email ≠ "" ∧
      formData.customer_phone ≠ "") ∧
    ∀ notes : String,
      requiredMissing { formData with notes := notes } = requiredMissing formData := by
  exact ⟨requiredMissing_eq_false_iff formData, fun _ => rfl⟩

/-- C5.  When one of the seven required fields of the draft is empty,
`handleSubmit` sends no request, and the draft and `success` are what they
were before the call (so `success` stays false). -/
theorem handleSubmit_invalid (postOk : Bool) (s : BookingState)
    (h : ¬ s.formData.requiredFilled) :
    (∀ e ∈ (handleSubmit postOk s).2, e.isRequest = false) ∧
    (handleSubmit postOk s).1.formData = s.formData ∧
    (handleSubmit postOk s).1.success = s.success ∧
    (s.success = false → (handleSubmit postOk s).1.success = false) := by
  have hm := (requiredMissing_eq_true_iff s.formData).2 h
  simp [handleSubmit, hm, Effect.isRequest]

/-- Witness of C5: the form with an empty draft. -/
theorem handleSubmit_invalid_witness :
    ¬ initialState.formData.requiredFilled ∧
    (∀ e ∈ (handleSubmit true initialState).2, e.isRequest = false) ∧
    (handleSubmit true initialState).1.formData = initialState.formData ∧
    (handleSubmit true initialState).1.success = false := by
  have hn : ¬ initialState.formData.requiredFilled := fun c => c.1 rfl
  have h := handleSubmit_invalid true initialState hn
  exact ⟨hn, h.1, h.2.1, h.2.2.2 rfl⟩

/-- C6.  When the draft passes the guard and the POST fails, the POST was
sent, and after `handleSubmit` the draft and `success` are what they were
before the call (so `success` is still false). -/
theorem handleSubmit_post_failed (s : BookingState) (h : s.formData.requiredFilled) :
    (∃ body, Effect.httpPost appointmentsPath body ∈ (handleSubmit false s).2) ∧
    (handleSubmit false s).1.formData = s.formData ∧
    (handleSubmit false s).1.success = s.success ∧
    (s.success = false → (handleSubmit false s).1.success = false) := by
  have hm := (requiredMissing_eq_false_iff s.formData).2 h
  obtain ⟨t, ht⟩ := h.2.2.1
  simp [handleSubmit, hm, ht]

/-- C7.  When the draft passes the guard and the POST succeeds, the POST was
sent, and after `handleSubmit` every string of the draft is `''`, its date is
`null`, as in the initial draft, and `success` is true. -/
theorem handleSubmit_post_succeeded (s : BookingState) (h : s.formData.requiredFilled) :
    (∃ body, Effect.httpPost appointmentsPath body ∈ (handleSubmit true s).2) ∧
    (handleSubmit true s).1.formData =
      { service_id := "", artist_id := "", appointment_date := .null,
        appointment_time := "", customer_name := "", customer_email := "",
        customer_phone := "", notes := "" } ∧
    (handleSubmit true s).1.formData = initialState.formData ∧
    (handleSubmit true s).1.success = true := by
  have hm := (requiredMissing_eq_false_iff s.formData).2 h
  obtain ⟨t, ht⟩ := h.2.2.1
  simp [handleSubmit, hm, ht, emptyDraft, initialState]

/-- Witness of C6: `filledDraft` submitted, the POST failing. -/
theorem handleSubmit_post_failed_witness :
    filledState.formData.requiredFilled ∧
    (∃ body, Effect.httpPost appointmentsPath body ∈ (handleSubmit false filledState).2) ∧
    (handleSubmit false filledState).1.formData = filledDraft ∧
    (handleSubmit false filledState).1.success = false := by
  have h := handleSubmit_post_failed filledState filledDraft_requiredFilled
  exact ⟨filledDraft_requiredFilled, h.1, h.2.1, h.2.2.2 rfl⟩

/-- Witness of C7: `filledDraft` submitted, the POST succeeding. -/
theorem handleSubmit_post_succeeded_witness :
    filledState.formData.requiredFilled ∧
    (handleSubmit true filledState).1.formData = emptyDraft ∧
    (handleSubmit true filledState).1.success = true := by
  have h := handleSubmit_post_succeeded filledState filledDraft_requiredFilled
  exact ⟨filledDraft_requiredFilled, h.2.2.1, h.2.2.2⟩

/-! ## Selectable dates -/

theorem isDateDisabled_eq_false_iff (now date : Int) :
    isDateDisabled now date = false ↔ now ≤ date := by
  simp [isDateDisabled]

theorem dayOf_midnight (day : Int) : dayOf (midnight day) = day := by
  simp [dayOf, midnight, msPerDay]

/-- What the code does for C8: the day `d` is selectable exactly when it lies
after the day of the current instant, or is that day and the current instant
is its midnight to the millisecond. -/
theorem isDateDisabled_midnight (now d : Int) :
    isDateDisabled now (midnight d) = false ↔
      dayOf now < d ∨ (dayOf now = d ∧ now = midnight d) := by
  rw [isDateDisabled_eq_false_iff]
  unfold dayOf midnight msPerDay
  omega

/-- C8, evaluated on the code: at noon of day 20000 (2024-10-04) the calendar
day 20000, which is today and so not before today, is disabled. -/
theorem isDateDisabled_today_at_noon :
    dayOf (midnight 20000 + 43200000) = 20000 ∧
    ¬ (20000 < dayOf (midnight 20000 + 43200000)) ∧
    isDateDisabled (midnight 20000 + 43200000) (midnight 20000) = true := by
  decide

/-- C9, as stated, fails: a draft built by the update handlers with day 19000
as its date is posted by `handleSubmit`, whatever the current instant is, so
also on day 20000, when that date lies in the past. -/
theorem handleSubmit_posts_past_date :
    filledState.formData.appointment_date = .date (midnight 19000) ∧
    dayOf (midnight 19000) < dayOf (midnight 20000 + 43200000) ∧
    Effect.httpPost appointmentsPath (appointmentData filledDraft (midnight 19000))
      ∈ (handleSubmit true filledState).2 := by
  exact ⟨rfl, by decide, filledState_posts⟩

theorem step_date_origin (s : BookingState) (e : BookingEvent) (t : Int)
    (h : (step s e).formData.appointment_date = .date t) :
    e = .dateChange (.date t) ∨ s.formData.appointment_date = .date t := by
  cases e with
  | fetchSettled servicesRes artistsRes =>
    cases servicesRes <;> cases artistsRes <;> exact Or.inr (by simpa [step, fetchData] using h)
  | serviceChange value => exact Or.inr h
  | artistChange value => exact Or.inr h
  | dateChange date =>
    have hd : date = .date t := h
    exact Or.inl (by rw [hd])
  | timeChange value => exact Or.inr h
  | inputChange field value => cases field <;> exact Or.inr h
  | submit =>
    refine Or.inr ?_
    simp only [step, handleSubmitStart] at h
    split_ifs at h
    · exact h
    · cases hd : s.formData.appointment_date <;> simp_all
  | postSettled postOk =>
    cases postOk
    · exact Or.inr h
    · simp [step, handleSubmitSettle, emptyDraft] at h
  | reset => exact Or.inr h

theorem timedRun_clock_le (events : List TimedEvent) :
    ∀ (clock : Int) (s : BookingState) (clock' : Int) (s' : BookingState),
      timedRun clock s events = some (clock', s') → clock ≤ clock' := by
  induction events with
  | nil =>
    intro clock s clock' s' h
    simp only [timedRun, Option.some.injEq, Prod.mk.injEq] at h
    omega
  | cons te rest ih =>
    intro clock s clock' s' h
    by_cases he : te.enabled clock s = true
    · simp only [timedRun, he, if_true] at h
      have h1 := ih te.now (step s te.event) clock' s' h
      have h2 : clock ≤ te.now := by
        simp only [TimedEvent.enabled, Bool.and_eq_true, decide_eq_true_eq] at he
        exact he.1.1
      omega
    · simp [timedRun, he] at h

theorem timedRun_date_origin (events : List TimedEvent) :
    ∀ (clock : Int) (s : BookingState) (clock' : Int) (s' : BookingState) (t : Int),
      timedRun clock s events = some (clock', s') →
      s'.formData.appointment_date = .date t →
      s.formData.appointment_date = .date t ∨
      ∃ te ∈ events, te.event = .dateChange (.date t) ∧
        isDateDisabled te.now t = false ∧ te.now ≤ clock' := by
  induction events with
  | nil =>
    intro clock s clock' s' t h hd
    simp only [timedRun, Option.some.injEq, Prod.mk.injEq] at h
    obtain ⟨_, rfl⟩ := h
    exact Or.inl hd
  | cons te rest ih =>
    intro clock s clock' s' t h hd
    by_cases he : te.enabled clock s = true
    · simp only [timedRun, he, if_true] at h
      rcases ih te.now (step s te.event) clock' s' t h hd with h1 | ⟨te', hmem, h2⟩
      · rcases step_date_origin s te.event t h1 with hev | hs
        · refine Or.inr ⟨te, List.mem_cons_self _ _, hev, ?_, timedRun_clock_le rest _ _ _ _ h⟩
          simp only [TimedEvent.enabled, hev, calendarOffers, Bool.and_eq_true,
            Bool.not_eq_true'] at he
          exact he.2
        · exact Or.inl hs
      · exact Or.inr ⟨te', List.mem_cons_of_mem _ hmem, h2⟩
    · simp [timedRun, he] at h

theorem timedRun_is_run (events : List TimedEvent) :
    ∀ (clock : Int) (s : BookingState) (clock' : Int) (s' : BookingState),
      timedRun clock s events = some (clock', s') →
      run s (events.map (fun te => te.event)) = some s' := by
  induction events with
  | nil =>
    intro clock s clock' s' h
    simp only [timedRun, Option.some.injEq, Prod.mk.injEq] at h
    simp [run, h.2]
  | cons te rest ih =>
    intro clock s clock' s' h
    by_cases he : te.enabled clock s = true
    · simp only [timedRun, he, if_true] at h
      have hen : te.event.enabled s = true := by
        simp only [TimedEvent.enabled, Bool.and_eq_true] at he
        exact he.1.2
      simp only [List.map_cons, run, hen, if_true]
      exact ih te.now (step s te.event) clock' s' h
    · simp [timedRun, he] at h

theorem timedSession_run :
    timedRun (midnight 18999) initialState timedSession
      = some (midnight 18999 + 43400000, timedSessionState) := by
  decide

/-- C9, amended.  In a session of the booking page, whenever `handleSubmit`
issues the POST, the date of the draft is a `Date` that a pick in the calendar
delivered during the session; at the instant of that pick `isDateDisabled`
accepted the date, so the date is not before the instant it was picked, and
the pick is not after the submission.  The posted body carries that date;
nothing relates the date to the instant of the submission. -/
theorem posted_date_picked_when_selectable (start : Int) (events : List TimedEvent)
    (clock : Int) (s : BookingState) (now : Int)
    (hrun : timedRun start initialState events = some (clock, s))
    (hsubmit : TimedEvent.enabled clock s ⟨now, .submit⟩ = true)
    (hpost : postedBodies (handleSubmitStart s).2 ≠ []) :
    ∃ t : Int, ∃ pick ∈ events,
      s.formData.appointment_date = .date t ∧
      postedBodies (handleSubmitStart s).2 = [appointmentData s.formData t] ∧
      pick.event = .dateChange (.date t) ∧
      isDateDisabled pick.now t = false ∧ pick.now ≤ t ∧ pick.now ≤ now := by
  have hfilled : s.formData.requiredFilled := by
    by_cases hm : requiredMissing s.formData = true
    · simp [handleSubmitStart, hm, postedBodies] at hpost
    · exact (requiredMissing_eq_false_iff _).1 (by simpa using hm)
  obtain ⟨t, ht⟩ := hfilled.2.2.1
  have hclock : clock ≤ now := by
    simp only [TimedEvent.enabled, Bool.and_eq_true, decide_eq_true_eq] at hsubmit
    exact hsubmit.1.1
  rcases timedRun_date_origin events start initialState clock s t hrun ht with h0 | h1
  · simp [initialState, emptyDraft] at h0
  · obtain ⟨pick, hmem, hev, hsel, hle⟩ := h1
    refine ⟨t, pick, hmem, ht, ?_, hev, hsel, (isDateDisabled_eq_false_iff _ _).1 hsel,
      le_trans hle hclock⟩
    simp [handleSubmitStart, (requiredMissing_eq_false_iff _).2 hfilled, ht, postedBodies]

/-- Witness of C9 amended: day 19000 is picked at noon of day 18999, the page
stays open, and the form is submitted at noon of day 20000; the POST carries
day 19000, which was selectable when picked and lies in the past when
posted. -/
theorem posted_date_picked_when_selectable_witness :
    timedRun (midnight 18999) initialState timedSession
      = some (midnight 18999 + 43400000, timedSessionState) ∧
    TimedEvent.enabled (midnight 18999 + 43400000) timedSessionState
      ⟨midnight 20000 + 43200000, .submit⟩ = true ∧
    dayOf (midnight 19000) < dayOf (midnight 20000 + 43200000) ∧
    ∃ t : Int, ∃ pick ∈ timedSession,
      timedSessionState.formData.appointment_date = .date t ∧
      postedBodies (handleSubmitStart timedSessionState).2
        = [appointmentData timedSessionState.formData t] ∧
      pick.event = .dateChange (.date t) ∧
      isDateDisabled pick.now t = false ∧ pick.now ≤ t ∧
      pick.now ≤ midnight 20000 + 43200000 :=
  ⟨timedSession_run, by decide, by decide,
   posted_date_picked_when_selectable (midnight 18999) timedSession
     (midnight 18999 + 43400000) timedSessionState (midnight 20000 + 43200000)
     timedSession_run (by decide) (by decide)⟩

/-! ## Field updates -/

/-- C10.  Each update handler sets its own field to the value it is given and
leaves every other field of the draft as it was: `handleServiceChange`,
`handleArtistChange`, `handleDateChange`, `handleTimeChange` and
`handleInputChange(f)`. -/
theorem update_handlers_frame (prev : Draft) (g : Field) :
    (∀ v, (handleServiceChange v prev).get g =
        if g = .service_id then .text v else prev.get g) ∧
    (∀ v, (handleArtistChange v prev).get g =
        if g = .artist_id then .text v else prev.get g) ∧
    (∀ d, (handleDateChange d prev).get g =
        if g = .appointment_date then .date d else prev.get g) ∧
    (∀ v, (handleTimeChange v prev).get g =
        if g = .appointment_time then .text v else prev.get g) ∧
    (∀ f v, (handleInputChange f v prev).get g =
        if g = f.toField then .text v else prev.get g) := by
  refine ⟨?_, ?_, ?_, ?_, ?_⟩
  · intro v; cases g <;> rfl
  · intro v; cases g <;> rfl
  · intro d; cases g <;> rfl
  · intro v; cases g <;> rfl
  · intro f v; cases f <;> cases g <;> rfl

/-! ## Time slots -/

/-- C11.  `timeSlots` is the list of the half-hour times from 09:00 to 18:00:
it has 19 entries, they read as 540, 570, ..., 1080 minutes and are written
`HH:MM`, each is 30 minutes after the one before, they increase strictly and
none occurs twice. -/
theorem timeSlots_half_hours :
    timeSlots.length = 19 ∧
    timeSlots.map slotMinutes = halfHours.map some ∧
    timeSlots = halfHours.map clockTime ∧
    halfHours.head? = some 540 ∧ halfHours.getLast? = some 1080 ∧
    List.Chain' (fun a b => b = a + 30) halfHours ∧
    List.Pairwise (fun a b => a < b) halfHours ∧
    List.Pairwise (fun a b => a < b) timeSlots ∧
    timeSlots.Nodup := by
  refine ⟨by decide, by decide, by decide, by decide, by decide, ?_, by decide, ?_,
    by decide⟩
  · simp [halfHours, List.range_succ]
  · simp only [String.lt_iff_toList_lt]
    decide

/-! ## The posted body -/

/-- C12, as stated, fails: for the draft `farDraft`, which passes the guard
and whose date is 1 January 10000, the posted `appointment_date` is
`10000-01-01`, eleven characters with a five-digit year. -/
theorem handleSubmit_body_year_10000 :
    requiredMissing farState.formData = false ∧
    (postedBodies (handleSubmit true farState).2).map (fun b => b.appointment_date)
      = ["10000-01-01"] ∧
    "10000-01-01".length = 11 := by
  refine ⟨by decide, ?_, by decide⟩
  rw [handleSubmit_postedBodies true farState (midnight 2932897) (by decide) rfl]
  decide

/-- C12, amended.  For every draft that passes the guard and whose date lies
in the years 1 to 9999, `handleSubmit` posts one body; its `appointment_date`
is the date written `YYYY-MM-DD` with four digits of year, two of month and
two of day, and every other field is the field of the draft. -/
theorem handleSubmit_body (postOk : Bool) (s : BookingState) (t : Int)
    (h : s.formData.requiredFilled) (ht : s.formData.appointment_date = .date t)
    (hy : 1 ≤ (civilFromDays (dayOf t)).1 ∧ (civilFromDays (dayOf t)).1 ≤ 9999) :
    postedBodies (handleSubmit postOk s).2 =
      [{ service_id := s.formData.service_id,
         artist_id := s.formData.artist_id,
         appointment_date :=
           isoDate (civilFromDays (dayOf t)).1.toNat (civilFromDays (dayOf t)).2.1.toNat
             (civilFromDays (dayOf t)).2.2.toNat,
         appointment_time := s.formData.appointment_time,
         customer_name := s.formData.customer_name,
         customer_email := s.formData.customer_email,
         customer_phone := s.formData.customer_phone,
         notes := s.formData.notes }] := by
  rw [handleSubmit_postedBodies postOk s t ((requiredMissing_eq_false_iff _).2 h) ht]
  simp [appointmentData, formatYMD_eq_isoDate t hy]

/-- Witness of C12 amended: `filledDraft`, dated 8 January 2022, is posted
with `appointment_date` equal to `2022-01-08`. -/
theorem handleSubmit_body_witness :
    filledState.formData.requiredFilled ∧
    (postedBodies (handleSubmit true filledState).2).map (fun b => b.appointment_date)
      = ["2022-01-08"] := by
  have h := handleSubmit_body true filledState (midnight 19000) filledDraft_requiredFilled rfl
    (by decide)
  refine ⟨filledDraft_requiredFilled, ?_⟩
  rw [h]
  decide

/-! ## The views of the booking page -/

/-- C13.  In every state the booking page reaches in which the success
message is shown, `handleReset` can occur, every other event that can occur
leaves the success message shown, and after `handleReset` the page shows the
form with the draft equal to the empty initial draft. -/
theorem success_view_left_only_by_reset (events : List BookingEvent) (s : BookingState)
    (hrun : run initialState events = some s) (hview : view s = .success) :
    BookingEvent.enabled s .reset = true ∧
    (∀ e : BookingEvent, e.enabled s = true → e ≠ .reset → view (step s e) = .success) ∧
    view (step s .reset) = .form ∧
    (step s .reset).formData = emptyDraft := by
  have hl : s.loading = false := by
    unfold view at hview
    split_ifs at hview
    simp_all
  have hs : s.success = true := by
    unfold view at hview
    split_ifs at hview
    simp_all
  have hdraft : s.formData = emptyDraft :=
    run_preserves_reset_draft events initialState s (fun h => by simp [initialState] at h)
      hrun hs
  refine ⟨by simp [BookingEvent.enabled, hview], ?_, ?_, ?_⟩
  · intro e he hne
    cases e with
    | fetchSettled servicesRes artistsRes => simp [BookingEvent.enabled, hl] at he
    | serviceChange value => simp [BookingEvent.enabled, hview] at he
    | artistChange value => simp [BookingEvent.enabled, hview] at he
    | dateChange date => simp [BookingEvent.enabled, hview] at he
    | timeChange value => simp [BookingEvent.enabled, hview] at he
    | inputChange field value => simp [BookingEvent.enabled, hview] at he
    | submit => simp [BookingEvent.enabled, hview] at he
    | postSettled postOk =>
      cases postOk <;> simp [step, handleSubmitSettle, view, hl, hs]
    | reset => exact absurd rfl hne
  · simp [step, handleReset, view, hl]
  · simpa [step, handleReset] using hdraft

/-- Witness of C13: after `bookingSession` the success message is shown, and
`handleReset` leads to the form with the empty draft. -/
theorem success_view_left_only_by_reset_witness :
    ∃ s, run initialState bookingSession = some s ∧ view s = .success ∧
      view (step s .reset) = .form ∧ (step s .reset).formData = emptyDraft := by
  have hrun : run initialState bookingSession
      = some { services := [manicure], artists := [], loading := false, submitting := false,
               success := true, formData := emptyDraft } := by decide
  have h := success_view_left_only_by_reset bookingSession _ hrun (by decide)
  exact ⟨_, hrun, by decide, h.2.2.1, h.2.2.2⟩

/-! ## Searching and filtering appointments -/

/-- C14.  With the search term `''` and the status filter `'all'`,
`filterAppointments` yields the source list itself: the same records in the
same order. -/
theorem filterAppointments_empty_all (s : AdminState) :
    (filterAppointments { s with searchTerm := "", statusFilter := "all" }).filteredAppointments
      = s.appointments ∧
    ∀ appointments : List Appointment, filtered appointments "" "all" = appointments := by
  refine ⟨?_, fun appointments => ?_⟩ <;> simp [filterAppointments, filtered, strTruthy]

/-- C15, evaluated on the code: the search term `ext` with the status filter
`'all'` does not return the appointment of Bob Jones, although the lower-cased
term occurs in his lower-cased phone `+41 79 222 22 22 EXT 5`; the phone is
compared as it is, the name and the email lower-cased. -/
theorem filterAppointments_phone_case :
    includes (toLowerCase bobJones.customer_phone) (toLowerCase "ext") = true ∧
    bobJones ∈ [anaSmith, bobJones] ∧
    bobJones ∉ filtered [anaSmith, bobJones] "ext" "all" ∧
    filtered [anaSmith, bobJones] "EXT" "all" = [bobJones] := by
  decide

theorem search_returned_and_excluded (appointments : List Appointment)
    (searchTerm : String) :
    (∀ appt ∈ appointments,
      includes (toLowerCase appt.customer_name) (toLowerCase searchTerm) = true →
      appt ∈ filtered appointments searchTerm "all") ∧
    (∀ appt : Appointment,
      includes (toLowerCase appt.customer_name) (toLowerCase searchTerm) = false →
      includes (toLowerCase appt.customer_email) (toLowerCase searchTerm) = false →
      includes appt.customer_phone searchTerm = false →
      appt ∉ filtered appointments searchTerm "all") ∧
    filtered [anaSmith, bobJones] "ana" "all" = [anaSmith] := by
  refine ⟨?_, ?_, by decide⟩
  · intro appt hmem hname
    rw [filtered_all]
    split_ifs
    · simp [List.mem_filter, hmem, matchesSearch, hname]
    · exact hmem
  · intro appt hname hemail hphone hin
    rw [filtered_all] at hin
    by_cases hterm : strTruthy searchTerm = true
    · simp [hterm, List.mem_filter, matchesSearch, hname, hemail, hphone] at hin
    · have hempty : searchTerm = "" := by simpa [strTruthy] using hterm
      rw [hempty, toLowerCase_empty, includes_empty] at hname
      exact Bool.false_ne_true hname.symm

set_option maxRecDepth 100000 in
theorem toLowerCase_samples :
    toLowerCase "Ana Smith" = "ana smith" ∧
    toLowerCase "ÉLODIE MÜLLER" = "élodie müller" ∧
    toLowerCase "ΟΔΥΣΣΕΥΣ" = "οδυσσευς" ∧
    toLowerCase "İstanbul" = "i̇stanbul" ∧
    toLowerCase "ЖУК" = "жук" ∧
    filtered [anaSmith, elodieMuller] "élodie" "all" = [elodieMuller] ∧
    filtered [anaSmith, elodieMuller] "MÜLL" "all" = [elodieMuller] := by
  decide

set_option maxRecDepth 100000 in
/-- C16, evaluated on the code: the text `AΣ` lower-cases to `aς`, with a final
sigma, and the term `Σ` to `σ`, so no lower-cased field of the two records
contains the lower-cased term; the record that has `AΣ` as its name is left
out, but the record that has `AΣ` as its phone is returned, because the phone
is compared as typed. -/
theorem search_final_sigma :
    toLowerCase "AΣ" = "aς" ∧ toLowerCase "Σ" = "σ" ∧
    toLowerCase "ÉLODIE MÜLLER" = "élodie müller" ∧
    (∀ appt ∈ [sigmaInName, sigmaInPhone],
      includes (toLowerCase appt.customer_name) (toLowerCase "Σ") = false ∧
      includes (toLowerCase appt.customer_email) (toLowerCase "Σ") = false ∧
      includes (toLowerCase appt.customer_phone) (toLowerCase "Σ") = false) ∧
    filtered [sigmaInName, sigmaInPhone] "Σ" "all" = [sigmaInPhone] := by
  decide

/-- C17.  `filterAppointments` leaves `appointments` (and the search term and
status filter) as they are and sets `filteredAppointments` to a sublist of
`appointments`: records of the source list, each at most as often as there,
in the order of the source list. -/
theorem filterAppointments_frame (s : AdminState) :
    (filterAppointments s).appointments = s.appointments ∧
    (filterAppointments s).searchTerm = s.searchTerm ∧
    (filterAppointments s).statusFilter = s.statusFilter ∧
    List.Sublist (filterAppointments s).filteredAppointments s.appointments ∧
    (∀ appt ∈ (filterAppointments s).filteredAppointments, appt ∈ s.appointments) ∧
    (∀ appt, (filterAppointments s).filteredAppointments.count appt
      ≤ s.appointments.count appt) := by
  have hsub := filtered_sublist s.appointments s.searchTerm s.statusFilter
  exact ⟨rfl, rfl, rfl, hsub, fun appt h => hsub.subset h, fun appt => hsub.count_le appt⟩

/-! ## Status changes and deletion -/

/-- C18.  `handleStatusChange(id, s)` sends one PATCH, to
`/api/appointments/{id}/status?status={s}`.  When the PATCH resolves it then
runs `fetchAppointments`, which sends the GET of the full list, and the state
is the one `fetchAppointments` leaves: the list is the fetched one, or the old
one when the GET fails.  When the PATCH rejects no GET is sent and the state
is unchanged. -/
theorem handleStatusChange_refetch (getRes : Option (List Appointment))
    (appointmentId newStatus : String) (s : AdminState) :
    statusPath appointmentId newStatus
      = "/api/appointments/" ++ appointmentId ++ "/status?status=" ++ newStatus ∧
    (∀ patchOk, (handleStatusChange patchOk getRes appointmentId newStatus s).2.filter
      Effect.isPatch = [.httpPatch (statusPath appointmentId newStatus)]) ∧
    (handleStatusChange true getRes appointmentId newStatus s).1
      = (fetchAppointments getRes s).1 ∧
    (handleStatusChange true getRes appointmentId newStatus s).2
      = [.httpPatch (statusPath appointmentId newStatus),
          .toastSuccess "appointments.updateSuccess"] ++ (fetchAppointments getRes s).2 ∧
    (handleStatusChange true getRes appointmentId newStatus s).2.filter Effect.isGet
      = [.httpGet appointmentsPath] ∧
    (handleStatusChange true getRes appointmentId newStatus s).1.appointments
      = getRes.getD s.appointments ∧
    (handleStatusChange false getRes appointmentId newStatus s).1 = s ∧
    (handleStatusChange false getRes appointmentId newStatus s).2.filter Effect.isGet = [] := by
  refine ⟨rfl, ?_, rfl, rfl, ?_, ?_, rfl, rfl⟩
  · intro patchOk
    cases patchOk <;> cases getRes <;> rfl
  · cases getRes <;> rfl
  · cases getRes <;> rfl

/-- C19.  Clicking the delete button of a record sends nothing and leaves
`appointments` and `filteredAppointments` as they are, only setting the
pending delete id.  An event of the page that can occur sends a DELETE only if
it is the confirmation in the dialog, which then runs `handleDelete`, and
only while the dialog is open, that is while a pending delete id is set. -/
theorem delete_needs_confirmation (s : AdminState) :
    (∀ appointmentId,
      (adminStep s (.deleteClick appointmentId)).2 = [] ∧
      (adminStep s (.deleteClick appointmentId)).1.appointments = s.appointments ∧
      (adminStep s (.deleteClick appointmentId)).1.filteredAppointments
        = s.filteredAppointments ∧
      (adminStep s (.deleteClick appointmentId)).1.deleteId = some appointmentId) ∧
    (∀ e : AdminEvent, e.enabled s = true →
      (adminStep s e).2.any Effect.isDelete = true →
      (∃ deleteOk getRes, e = .dialog .confirm deleteOk getRes ∧
        (adminStep s e).2 = (handleDelete deleteOk getRes s).2) ∧
      dialogOpen s = true ∧ ∃ id, s.deleteId = some id ∧ id ≠ "") := by
  refine ⟨fun appointmentId => ⟨rfl, rfl, rfl, rfl⟩, ?_⟩
  intro e he hdel
  have hopen : dialogOpen s = true → ∃ id, s.deleteId = some id ∧ id ≠ "" := by
    intro h
    unfold dialogOpen at h
    cases hid : s.deleteId with
    | none => simp [hid] at h
    | some id => exact ⟨id, rfl, by simpa [hid, strTruthy] using h⟩
  cases e with
  | setSearchTerm value => simp [adminStep] at hdel
  | setStatusFilter value => simp [adminStep] at hdel
  | statusSelect appointmentId newStatus patchOk getRes =>
    cases patchOk <;> cases getRes <;>
      simp [adminStep, handleStatusChange, fetchAppointments, Effect.isDelete] at hdel
  | deleteClick appointmentId => simp [adminStep] at hdel
  | dialog action deleteOk getRes =>
    cases action with
    | dismiss => simp [adminStep] at hdel
    | confirm =>
      have ho : dialogOpen s = true := by
        by_cases h : dialogOpen s = true
        · exact h
        · simp [AdminEvent.enabled, confirmDialogActions, h] at he
      exact ⟨⟨deleteOk, getRes, rfl, rfl⟩, ho, hopen ho⟩

/-- Witness of C19: with the appointments of Ana Smith and Bob Jones loaded,
the delete button of `a-1` is clicked and the dialog confirmed; the DELETE
goes to `/api/appointments/a-1`. -/
theorem delete_needs_confirmation_witness :
    (adminStep adminLoaded (.deleteClick "a-1")).2 = [] ∧
    AdminEvent.enabled (adminStep adminLoaded (.deleteClick "a-1")).1
      (.dialog .confirm true (some [bobJones])) = true ∧
    Effect.httpDelete "/api/appointments/a-1" ∈
      (adminStep (adminStep adminLoaded (.deleteClick "a-1")).1
        (.dialog .confirm true (some [bobJones]))).2 ∧
    dialogOpen (adminStep adminLoaded (.deleteClick "a-1")).1 = true := by
  have h := (delete_needs_confirmation (adminStep adminLoaded (.deleteClick "a-1")).1).2
    (.dialog .confirm true (some [bobJones])) (by decide) (by decide)
  exact ⟨(delete_needs_confirmation adminLoaded).1 "a-1" |>.1, by decide, by decide, h.2.1⟩

/-- C20.  `handleDelete` sends one DELETE, to `/api/appointments/{deleteId}`.
When it resolves, the pending delete id is cleared and `fetchAppointments`
sends the GET of the full list.  When it rejects, no GET is sent and the
state, with the list and the pending delete id, is unchanged. -/
theorem handleDelete_refetch (getRes : Option (List Appointment)) (s : AdminState) :
    (∀ id, deletePath (some id) = "/api/appointments/" ++ id) ∧
    (∀ deleteOk, (handleDelete deleteOk getRes s).2.filter Effect.isDelete
      = [.httpDelete (deletePath s.deleteId)]) ∧
    (handleDelete true getRes s).1.deleteId = none ∧
    (handleDelete true getRes s).1 = (fetchAppointments getRes (setDeleteId none s)).1 ∧
    (handleDelete true getRes s).2.filter Effect.isGet = [.httpGet appointmentsPath] ∧
    (handleDelete true getRes s).1.appointments = getRes.getD s.appointments ∧
    (handleDelete false getRes s).2.filter Effect.isGet = [] ∧
    (handleDelete false getRes s).1 = s ∧
    (handleDelete false getRes s).1.appointments = s.appointments ∧
    (handleDelete false getRes s).1.deleteId = s.deleteId := by
  refine ⟨fun id => rfl, ?_, ?_, rfl, ?_, ?_, rfl, rfl, rfl, rfl⟩
  · intro deleteOk
    cases deleteOk <;> cases getRes <;> rfl
  · cases getRes <;> rfl
  · cases getRes <;> rfl
  · cases getRes <;> rfl

/-! ## Status transitions -/

/-- C21.  For a record shown in the list, whatever its status, the status
select offers exactly the four values pending, confirmed, completed and
cancelled; choosing one sends the PATCH for that value, and the effects of
`handleStatusChange` are the same in every state of the page, so they do not
depend on the current status of the record. -/
theorem status_transitions_unrestricted (s : AdminState) (appt : Appointment)
    (hloaded : s.loading = false) (hshown : appt ∈ s.filteredAppointments)
    (target : String) (patchOk : Bool) (getRes : Option (List Appointment)) :
    (AdminEvent.enabled s (.statusSelect appt.id target patchOk getRes) = true ↔
      target ∈ ["pending", "confirmed", "completed", "cancelled"]) ∧
    (adminStep s (.statusSelect appt.id target patchOk getRes)).2.filter Effect.isPatch
      = [.httpPatch (statusPath appt.id target)] ∧
    (∀ s' : AdminState,
      (handleStatusChange patchOk getRes appt.id target s').2
        = (handleStatusChange patchOk getRes appt.id target s).2) := by
  refine ⟨?_, ?_, ?_⟩
  · have hany : s.filteredAppointments.any (fun a => a.id == appt.id) = true :=
      List.any_eq_true.2 ⟨appt, hshown, by simp⟩
    simp [AdminEvent.enabled, hloaded, hany, statusOptions]
  · cases patchOk <;> cases getRes <;> rfl
  · intro s'
    cases patchOk <;> cases getRes <;> rfl

/-- Witness of C21: the appointment of Bob Jones, which is confirmed, can be
set back to pending. -/
theorem status_transitions_unrestricted_witness :
    bobJones.status = "confirmed" ∧
    AdminEvent.enabled adminLoaded (.statusSelect bobJones.id "pending" true none) = true ∧
    (adminStep adminLoaded (.statusSelect bobJones.id "pending" true none)).2.filter
      Effect.isPatch = [.httpPatch "/api/appointments/a-2/status?status=pending"] := by
  have h := status_transitions_unrestricted adminLoaded bobJones (by decide) (by decide)
    "pending" true none
  exact ⟨by decide, h.1.2 (by decide), by rw [h.2.1]; decide⟩

/-! ## Loading the catalog and failed requests -/

/-- C22, as stated, fails: when the services request succeeds and the artists
request is rejected, `fetchData` leaves `services` empty; and a rejection of
the artists request sets `loading` to false while the services request has
not been answered yet. -/
theorem fetchData_not_independent :
    (fetchData (some [manicure]) none initialState).1.services = [] ∧
    (fetchDataAnswer (.artists none) catalogLoadStart initialState).1.services = none ∧
    (fetchDataAnswer (.artists none) catalogLoadStart initialState).2.loading = false := by
  decide

/-- C22, amended.  `fetchData` awaits its two requests together: when both
succeed, `services` and `artists` are set to the two results and `loading`
becomes false; when one of them is rejected neither list changes and
`loading` becomes false.  Answer by answer, in either order, the outcome is
the same, and after the first answer `loading` is false exactly when that
answer is a rejection (it was true before). -/
theorem fetchData_all_or_nothing (s : BookingState) :
    (∀ services artists, (fetchData (some services) (some artists) s).1
      = { s with services := services, artists := artists, loading := false }) ∧
    (∀ servicesRes artistsRes, servicesRes = none ∨ artistsRes = none →
      (fetchData servicesRes artistsRes s).1 = { s with loading := false }) ∧
    (∀ servicesRes artistsRes,
      (fetchDataAnswer (.artists artistsRes)
          (fetchDataAnswer (.services servicesRes) catalogLoadStart s).1
          (fetchDataAnswer (.services servicesRes) catalogLoadStart s).2).2
        = (fetchData servicesRes artistsRes s).1 ∧
      (fetchDataAnswer (.services servicesRes)
          (fetchDataAnswer (.artists artistsRes) catalogLoadStart s).1
          (fetchDataAnswer (.artists artistsRes) catalogLoadStart s).2).2
        = (fetchData servicesRes artistsRes s).1) ∧
    (∀ first : CatalogAnswer, s.loading = true →
      ((fetchDataAnswer first catalogLoadStart s).2.loading = false ↔
        first.rejected = true)) := by
  refine ⟨fun _ _ => rfl, ?_, fun servicesRes artistsRes =>
    fetchDataAnswer_both servicesRes artistsRes s, ?_⟩
  · intro servicesRes artistsRes h
    cases servicesRes <;> cases artistsRes <;> simp_all [fetchData]
  · intro first hl
    cases first with
    | services res =>
      cases res <;> simp [fetchDataAnswer, catalogLoadStart, CatalogAnswer.rejected, hl]
    | artists res =>
      cases res <;> simp [fetchDataAnswer, catalogLoadStart, CatalogAnswer.rejected, hl]

/-- Witness of C22 amended: on mount, a rejected artists request leaves both
lists empty whatever the services request gives. -/
theorem fetchData_all_or_nothing_witness :
    (fetchData (some [manicure]) none initialState).1
      = { initialState with loading := false } ∧
    ((fetchDataAnswer (.artists none) catalogLoadStart initialState).2.loading = false ↔
      (CatalogAnswer.artists none).rejected = true) :=
  ⟨(fetchData_all_or_nothing initialState).2.1 (some [manicure]) none (Or.inr rfl),
   (fetchData_all_or_nothing initialState).2.2.2 (.artists none) rfl⟩

/-- C23, as stated, fails: when its requests fail, `fetchData` of the booking
page shows no error notice; it only writes to the console. -/
theorem fetchData_failure_silent :
    (fetchData none none initialState).2
      = [.httpGet "/api/services", .httpGet "/api/artists",
          .consoleError "Error fetching data:"] ∧
    (fetchData none none initialState).2.any Effect.isErrorNotice = false := by
  decide

/-- C23, amended.  Each of the five handlers has an outcome for a failed
request.  `handleSubmit`, `fetchAppointments`, `handleStatusChange` and
`handleDelete` then show an error toast; `fetchData` of the booking page
writes the error to the console, sets `loading` to false and shows no
notice. -/
theorem failed_requests_caught (s : BookingState) (a : AdminState) :
    (∀ servicesRes artistsRes, servicesRes = none ∨ artistsRes = none →
      Effect.consoleError "Error fetching data:" ∈ (fetchData servicesRes artistsRes s).2 ∧
      (fetchData servicesRes artistsRes s).2.any Effect.isErrorNotice = false ∧
      (fetchData servicesRes artistsRes s).1.loading = false) ∧
    (s.formData.requiredFilled →
      Effect.toastError "Failed to book appointment. Please try again."
        ∈ (handleSubmit false s).2) ∧
    Effect.toastError "appointments.loadError" ∈ (fetchAppointments none a).2 ∧
    (∀ getRes appointmentId newStatus,
      Effect.toastError "appointments.updateError"
        ∈ (handleStatusChange false getRes appointmentId newStatus a).2) ∧
    (∀ getRes,
      Effect.toastError "appointments.deleteError" ∈ (handleDelete false getRes a).2) := by
  refine ⟨?_, ?_, ?_, ?_, ?_⟩
  · intro servicesRes artistsRes h
    cases servicesRes <;> cases artistsRes <;> simp_all [fetchData, Effect.isErrorNotice]
  · intro h
    obtain ⟨t, ht⟩ := h.2.2.1
    rw [handleSubmit_effects_failed s t ((requiredMissing_eq_false_iff _).2 h) ht]
    simp
  · simp [fetchAppointments]
  · intro getRes appointmentId newStatus
    simp [handleStatusChange]
  · intro getRes
    simp [handleDelete]

/-- Witness of C23 amended: `filledDraft` submitted with the POST failing
shows the error toast. -/
theorem failed_requests_caught_witness :
    Effect.toastError "Failed to book appointment. Please try again."
      ∈ (handleSubmit false filledState).2 ∧
    (fetchData none none filledState).2.any Effect.isErrorNotice = false :=
  ⟨(failed_requests_caught filledState adminLoaded).2.1 filledDraft_requiredFilled,
   ((failed_requests_caught filledState adminLoaded).1 none none (Or.inl rfl)).2.1⟩

/-! ## The service name of an appointment -/

/-- C27.  `getLocalizedServiceName` gives under `de-CH` what it gives under
`de`; for every other language it returns `service_name_<lang>` when that is
a non-empty string, else `service_name_en` when that is a non-empty string,
else `N/A`; its result is always a non-empty string. -/
theorem getLocalizedServiceName_fallback (appt : Appointment) (lang : String) :
    getLocalizedServiceName "de-CH" appt = getLocalizedServiceName "de" appt ∧
    (lang ≠ "de-CH" →
      ((appt.labels.get ("service_name_" ++ lang)).isNonEmptyStr →
        getLocalizedServiceName lang appt = appt.labels.get ("service_name_" ++ lang)) ∧
      (¬ (appt.labels.get ("service_name_" ++ lang)).isNonEmptyStr →
        (appt.labels.get "service_name_en").isNonEmptyStr →
        getLocalizedServiceName lang appt = appt.labels.get "service_name_en") ∧
      (¬ (appt.labels.get ("service_name_" ++ lang)).isNonEmptyStr →
        ¬ (appt.labels.get "service_name_en").isNonEmptyStr →
        getLocalizedServiceName lang appt = .str "N/A")) ∧
    (getLocalizedServiceName lang appt).isNonEmptyStr := by
  have hna : (JsVal.str "N/A").truthy = true := by decide
  refine ⟨rfl, ?_, ?_⟩
  · intro hne
    simp only [getLocalizedServiceName, hne, if_false]
    refine ⟨?_, ?_, ?_⟩
    · intro h1
      simp [jsOr, (jsTruthy_iff _).2 h1]
    · intro h1 h2
      have f1 : (appt.labels.get ("service_name_" ++ lang)).truthy = false := by
        simpa using fun c => h1 ((jsTruthy_iff _).1 c)
      simp [jsOr, f1, (jsTruthy_iff _).2 h2]
    · intro h1 h2
      have f1 : (appt.labels.get ("service_name_" ++ lang)).truthy = false := by
        simpa using fun c => h1 ((jsTruthy_iff _).1 c)
      have f2 : (appt.labels.get "service_name_en").truthy = false := by
        simpa using fun c => h2 ((jsTruthy_iff _).1 c)
      simp [jsOr, f1, f2]
  · rw [← jsTruthy_iff]
    simp only [getLocalizedServiceName, jsOr]
    split_ifs <;> simp_all

/-- Witness of C27: the appointment of Ana Smith has only the English service
name, which is what German gives. -/
theorem getLocalizedServiceName_fallback_witness :
    getLocalizedServiceName "de" anaSmith = .str "Manicure" ∧
    getLocalizedServiceName "de-CH" anaSmith = getLocalizedServiceName "de" anaSmith := by
  have h := getLocalizedServiceName_fallback anaSmith "de"
  have e : anaSmith.labels.get ("service_name_" ++ "de") = .undefined := by decide
  have h2 := (h.2.1 (by decide)).2.1 (by rintro ⟨x, hx, _⟩; rw [e] at hx; cases hx)
    ⟨"Manicure", by decide, by decide⟩
  exact ⟨by rw [h2]; decide, h.1⟩

/-! ## The flags `submitting` and `loading` -/

/-- C29.  `handleSubmit` can be called only while `submitting` is false; once
it has returned `submitting` is false, whether the guard stopped it, the POST
succeeded or the POST failed; while the POST is under way `submitting` is
true, which happens exactly when the draft passed the guard, and the handler
sets it back to false when the POST settles. -/
theorem submitting_only_while_posting (postOk : Bool) (s : BookingState)
    (he : BookingEvent.enabled s .submit = true) :
    s.submitting = false ∧
    (handleSubmit postOk s).1.submitting = false ∧
    ((handleSubmitStart s).1.submitting = true ↔ s.formData.requiredFilled) ∧
    ((handleSubmitStart s).1.submitting = true ↔ postedBodies (handleSubmitStart s).2 ≠ []) ∧
    (∀ s' : BookingState, (handleSubmitSettle postOk s').1.submitting = false) := by
  have hs : s.submitting = false := by
    simp [BookingEvent.enabled] at he
    exact he.2
  refine ⟨hs, ?_, ?_, ?_, ?_⟩
  · unfold handleSubmit
    by_cases hm : requiredMissing s.formData = true
    · simp [hm, hs]
    · cases hd : s.formData.appointment_date <;> cases postOk <;> simp [hm, hd]
  · by_cases hm : requiredMissing s.formData = true
    · have hn := (requiredMissing_eq_true_iff _).1 hm
      simp [handleSubmitStart, hm, hs, hn]
    · have hf := (requiredMissing_eq_false_iff _).1 (by simpa using hm)
      obtain ⟨t, ht⟩ := hf.2.2.1
      simp [handleSubmitStart, hm, ht, hf]
  · by_cases hm : requiredMissing s.formData = true
    · simp [handleSubmitStart, hm, hs, postedBodies]
    · have hf := (requiredMissing_eq_false_iff _).1 (by simpa using hm)
      obtain ⟨t, ht⟩ := hf.2.2.1
      simp [handleSubmitStart, hm, ht, postedBodies]
  · intro s'
    cases postOk <;> simp [handleSubmitSettle]

/-- Witness of C29: `filledDraft` is being submitted. -/
theorem submitting_only_while_posting_witness :
    BookingEvent.enabled filledState .submit = true ∧
    (handleSubmitStart filledState).1.submitting = true ∧
    (handleSubmit false filledState).1.submitting = false ∧
    (handleSubmit true filledState).1.submitting = false :=
  ⟨filledState_submit_enabled,
   (submitting_only_while_posting true filledState filledState_submit_enabled).2.2.1.2
     filledDraft_requiredFilled,
   (submitting_only_while_posting false filledState filledState_submit_enabled).2.1,
   (submitting_only_while_posting true filledState filledState_submit_enabled).2.1⟩

/-- C30.  After `fetchData` of the booking page or `fetchAppointments` has
settled, `loading` is false whatever the outcome; on failure the lists are
what they were before the call: `services` and `artists`, which are empty on
mount, and `appointments` and `filteredAppointments`. -/
theorem loading_cleared_lists_kept (s : BookingState) (a : AdminState) :
    (∀ servicesRes artistsRes, (fetchData servicesRes artistsRes s).1.loading = false) ∧
    (∀ servicesRes artistsRes, servicesRes = none ∨ artistsRes = none →
      (fetchData servicesRes artistsRes s).1.services = s.services ∧
      (fetchData servicesRes artistsRes s).1.artists = s.artists ∧
      (fetchData servicesRes artistsRes initialState).1.services = [] ∧
      (fetchData servicesRes artistsRes initialState).1.artists = []) ∧
    (∀ getRes, (fetchAppointments getRes a).1.loading = false) ∧
    (fetchAppointments none a).1.appointments = a.appointments ∧
    (fetchAppointments none a).1.filteredAppointments = a.filteredAppointments := by
  refine ⟨?_, ?_, ?_, rfl, rfl⟩
  · intro servicesRes artistsRes
    cases servicesRes <;> cases artistsRes <;> rfl
  · intro servicesRes artistsRes h
    cases servicesRes <;> cases artistsRes <;> simp_all [fetchData, initialState]
  · intro getRes
    cases getRes <;> rfl

/-- Witness of C30: with the appointments loaded, a failed re-fetch keeps
them. -/
theorem loading_cleared_lists_kept_witness :
    (fetchData none (some []) initialState).1.services = [] ∧
    (fetchAppointments none adminLoaded).1.appointments = [anaSmith, bobJones] ∧
    (fetchAppointments none adminLoaded).1.loading = false := by
  have h := loading_cleared_lists_kept initialState adminLoaded
  exact ⟨(h.2.1 none (some []) (Or.inl rfl)).2.2.1, by rw [h.2.2.2.1]; decide, h.2.2.1 none⟩

/-! ## The contact form -/

/-- C25.  `validateForm` accepts the form exactly when the name and the
message are not blank after trimming and the email is not blank and has the
shape `local@domain.tld` without whitespace and without a further `@`; blank
after trimming means made of whitespace only; the phone has no influence; and
when `validateForm` rejects the form, `handleSubmit` sends no request and
leaves the form data as entered. -/
theorem validateForm_accepts_iff (formData : ContactForm) :
    (validateForm formData = true ↔
      trim formData.name ≠ "" ∧ trim formData.message ≠ "" ∧
      trim formData.email ≠ "" ∧ emailShape formData.email) ∧
    (∀ text : String, trim text = "" ↔ ∀ c ∈ text.data, isWhiteSpace c = true) ∧
    (∀ phone : String, validateForm { formData with phone := phone } = validateForm formData) ∧
    (∀ (postOk : Bool) (s : ContactState), validateForm s.formData = false →
      (∀ e ∈ (s.handleSubmit postOk).2, e.isRequest = false) ∧
      (s.handleSubmit postOk).1.formData = s.formData) := by
  refine ⟨validateForm_iff formData, trim_eq_empty_iff, fun _ => rfl, ?_⟩
  intro postOk s h
  simp [ContactState.handleSubmit, h, ContactEffect.isRequest]

/-- Witness of C25: `ana@example.com` is accepted, `ana@example` is rejected
and nothing is sent. -/
theorem validateForm_accepts_iff_witness :
    validateForm contactFilled.formData = true ∧
    emailShape contactFilled.formData.email ∧
    validateForm contactBadEmail.formData = false ∧
    (∀ e ∈ (contactBadEmail.handleSubmit true).2, e.isRequest = false) ∧
    (contactBadEmail.handleSubmit true).1.formData = contactBadEmail.formData := by
  have hok : validateForm contactFilled.formData = true := by decide
  have hbad : validateForm contactBadEmail.formData = false := by decide
  have h := ((validateForm_accepts_iff contactFilled.formData).1.1 hok).2.2.2
  have h2 := (validateForm_accepts_iff contactFilled.formData).2.2.2 true contactBadEmail hbad
  exact ⟨hok, h, hbad, h2.1, h2.2⟩

/-! ## The active tab of the services page -/

theorem languageChanged_keeps_activeTab (lang : String) (s : ServicesState)
    (h : s.activeTab.truthy = true) : s.languageChanged lang = s := by
  unfold ServicesState.languageChanged ServicesState.activeTabEffect
  cases s.categories <;> simp [h]

theorem loaded_sets_activeTab (lang : String) (services : List Entity) (first : Entity)
    (others : List Entity) :
    (ServicesState.initial.loaded lang (some services) (some (first :: others))).activeTab
      = getLocalizedText lang first "name" := by
  simp [ServicesState.loaded, ServicesState.fetchData, ServicesState.activeTabEffect,
    ServicesState.initial, JsVal.truthy]

/-- C26, evaluated on the code: the categories load under English and the
active tab becomes `Manicure`; when the language changes to German the effect
hook runs but finds `activeTab` set and leaves it, so the active tab is the
German name of no category; a visitor who had picked the second category is
back on the first one. -/
theorem activeTab_stale_after_language_change :
    (ServicesState.initial.loaded "en" (some []) (some sampleCategories)).activeTab
      = .str "Manicure" ∧
    ((ServicesState.initial.loaded "en" (some []) (some sampleCategories)).languageChanged
      "de").activeTab = .str "Manicure" ∧
    (∀ c ∈ sampleCategories, getLocalizedText "de" c "name" ≠ .str "Manicure") ∧
    (((ServicesState.initial.loaded "en" (some []) (some sampleCategories)).handleTabChange
      (.str "Pedicure")).languageChanged "de").activeCategory "de" = sampleCategories.head? := by
  decide

/-! ## The style filter of the gallery -/

/-- C28, as stated, fails: with a fetched style whose English name is `all`
and an item of that style, the style is offered, and selecting it with the
colour filter `all` shows every item, among them an item of the style
`Modern`. -/
theorem offered_style_named_all :
    styleNamedAll ∈ (fetchGalleryData (some galleryWithAll)
      (some [styleNamedAll, styleModern]) (some []) GalleryState.initial).1.styles ∧
    filteredItems (handleStyleChange styleNamedAll.name_en (handleColorChange "all"
      (fetchGalleryData (some galleryWithAll) (some [styleNamedAll, styleModern]) (some [])
        GalleryState.initial).1)) = galleryWithAll ∧
    ∃ item ∈ galleryWithAll, item.style ≠ styleNamedAll.name_en := by
  decide

/-- C28, amended.  After a successful `fetchGalleryData` the styles offered
are the fetched styles whose English name is the style of at least one
gallery item, in fetched order; selecting an offered style whose English name
is not `all`, with the colour filter `all`, gives a non-empty list of items,
each of that style. -/
theorem offered_styles_filter (gallery : List GalleryItem) (styles colors : List GalleryTag)
    (s : GalleryState) :
    (fetchGalleryData (some gallery) (some styles) (some colors) s).1.styles
      = styles.filter (fun style =>
          (fetchGalleryData (some gallery) (some styles) (some colors) s).1.galleryItems.any
            (fun item => item.style == style.name_en)) ∧
    (∀ style ∈ (fetchGalleryData (some gallery) (some styles) (some colors) s).1.styles,
      style.name_en ≠ "all" →
      filteredItems (handleStyleChange style.name_en (handleColorChange "all"
        (fetchGalleryData (some gallery) (some styles) (some colors) s).1)) ≠ [] ∧
      ∀ item ∈ filteredItems (handleStyleChange style.name_en (handleColorChange "all"
        (fetchGalleryData (some gallery) (some styles) (some colors) s).1)),
        item.style = style.name_en) := by
  refine ⟨fetchGalleryData_styles gallery styles colors s, ?_⟩
  intro style hstyle hne
  rw [fetchGalleryData_styles] at hstyle
  generalize (fetchGalleryData (some gallery) (some styles) (some colors) s).1 = s' at *
  obtain ⟨item, hitem, hst⟩ := List.any_eq_true.1 (List.mem_filter.1 hstyle).2
  have hf : filteredItems (handleStyleChange style.name_en (handleColorChange "all" s'))
      = s'.galleryItems.filter (fun item => item.style == style.name_en) := by
    simp [filteredItems, handleStyleChange, handleColorChange, hne]
  rw [hf]
  refine ⟨?_, ?_⟩
  · intro hnil
    have : item ∈ s'.galleryItems.filter (fun item => item.style == style.name_en) :=
      List.mem_filter.2 ⟨hitem, hst⟩
    rw [hnil] at this
    cases this
  · intro it hit
    simpa using (List.mem_filter.1 hit).2

/-- Witness of C28 amended: with no fetched items the default gallery is
shown; of the fetched styles `Modern` and `Vintage` only `Modern` is offered,
and selecting it gives the two items of that style. -/
theorem offered_styles_filter_witness :
    (fetchGalleryData (some []) (some [styleModern, styleVintage]) (some [])
      GalleryState.initial).1.styles = [styleModern] ∧
    (filteredItems (handleStyleChange styleModern.name_en (handleColorChange "all"
      (fetchGalleryData (some []) (some [styleModern, styleVintage]) (some [])
        GalleryState.initial).1))).map (fun item => item.id) = ["2", "4"] ∧
    filteredItems (handleStyleChange styleModern.name_en (handleColorChange "all"
      (fetchGalleryData (some []) (some [styleModern, styleVintage]) (some [])
        GalleryState.initial).1)) ≠ [] := by
  have h := offered_styles_filter [] [styleModern, styleVintage] [] GalleryState.initial
  exact ⟨by decide, by decide, (h.2 styleModern (by decide) (by decide)).1⟩

/-! ## Coalescing of cached fetches -/

/-- C24.  When a call of `get_or_fetch` for a key calls the fetcher, a second
call for the same key made before that fetch has ended calls no fetcher and
leaves the cache as it is, so the fetcher is called once; both callers are
told `loading` with the same data; and once the fetch has ended, the entry of
the key, which is what both callers see, holds the fetched value, or after a
failure the error flag and the previous value. -/
theorem getOrFetch_coalesces {α : Type} (staleAfter now1 now2 : Nat) (key : String)
    (c : ResponseCache α) (hfirst : (getOrFetch staleAfter now1 key c).2.1 = true) :
    (getOrFetch staleAfter now2 key (getOrFetch staleAfter now1 key c).1).2.1 = false ∧
    (getOrFetch staleAfter now2 key (getOrFetch staleAfter now1 key c).1).1
      = (getOrFetch staleAfter now1 key c).1 ∧
    (getOrFetch staleAfter now1 key c).2.2.loading = true ∧
    (getOrFetch staleAfter now2 key (getOrFetch staleAfter now1 key c).1).2.2
      = (getOrFetch staleAfter now1 key c).2.2 ∧
    (∀ (now3 : Nat) (value : α),
      (resolveFetch now3 key (some value) (getOrFetch staleAfter now1 key c).1).view key
        = { data := some value, loading := false, error := false }) ∧
    (∀ now3 : Nat,
      (resolveFetch now3 key none (getOrFetch staleAfter now1 key c).1).view key
        = { data := (getOrFetch staleAfter now1 key c).2.2.data, loading := false,
            error := true }) := by
  unfold getOrFetch at hfirst ⊢
  cases he : c.entry key with
  | none =>
    simp [he, entry_put, resolveFetch, ResponseCache.view]
  | some e =>
    by_cases hl : e.loading = true
    · simp [he, hl] at hfirst
    · by_cases hfresh : (e.value.isSome && decide (now1 < e.fetchedAt + staleAfter)) = true
      · simp [he, hl, hfresh] at hfirst
      · simp [he, hl, hfresh, entry_put, resolveFetch, ResponseCache.view]

/-- Witness of C24: two calls on the empty cache for the key `services`. -/
theorem getOrFetch_coalesces_witness :
    (getOrFetch 60 0 "services" ([] : ResponseCache (List Entity))).2.1 = true ∧
    (getOrFetch 60 1 "services"
      (getOrFetch 60 0 "services" ([] : ResponseCache (List Entity))).1).2.1 = false ∧
    (resolveFetch 2 "services" (some [manicure])
      (getOrFetch 60 0 "services" ([] : ResponseCache (List Entity))).1).view "services"
      = { data := some [manicure], loading := false, error := false } := by
  have h := getOrFetch_coalesces 60 0 1 "services" ([] : ResponseCache (List Entity)) rfl
  exact ⟨rfl, h.1, h.2.2.2.2.1 2 [manicure]⟩

end NailSite
